import Mathlib

/-
  Verification of the LUKS2 unlocking core (grub-core/disk/luks2.c).

  The C code is shallowly embedded: records mirror the C structures, the
  control flow of each function is reproduced as a Lean function, machine
  arithmetic is made explicit (Nat with mod 2^w where overflow matters),
  and C undefined behaviour is reified as the `CRet.undef` outcome.
  External primitives that live outside this file's source (disk reads,
  the JSON parser of grub-core/lib/json, PBKDF2, ciphers, AF_merge,
  base64) are passed in as an oracle structure `Prims`, following the
  interface contracts of the specification's §6.
-/

set_option linter.unusedVariables false

/-- Error kinds of grub_err_t as used by luks2.c; `none` is GRUB_ERR_NONE (0). -/
inductive GrubErr
  | none
  | badArgument (msg : String)
  | badSignature (msg : String)
  | fileNotFound (msg : String)
  | accessDenied (msg : String)
  | ioErr (msg : String)
  | outOfMemory
  | crypto (code : Nat)
deriving DecidableEq, Repr

/-- True exactly on the GRUB_ERR_BAD_ARGUMENT kind. -/
def GrubErr.isBadArgument : GrubErr → Bool
  | .badArgument _ => true
  | _ => false

/-- Outcome of a C computation that can run into undefined behaviour:
either a returned grub_err_t value, or `undef` marking that the C abstract
machine's behaviour is undefined from that point on. -/
inductive CRet
  | ret (e : GrubErr)
  | undef
deriving DecidableEq, Repr

/-- Modelled from the spec: JSON values handed out by the external JSON parser
(grub-core/lib/json, not under src/); §6 lists its navigation contract
(getvalue/getstring/getint64/getuint64/getchild/getsize).  An object child at
position i is exposed as the (key, value) pair `kv`, whose single child is the
value and whose own numeric reading parses the key string — the behaviour §4.C
and §9 describe for the jsmn-based wrapper ("two-level objects keyed by
stringified integers"). -/
inductive JVal
  | null
  | bool (b : Bool)
  | num (n : Int)
  | str (s : String)
  | arr (elems : List JVal)
  | obj (members : List (String × JVal))
  | kv (key : String) (val : JVal)

/-- Member lookup in a JSON object, first match wins. -/
def jsonLookup : List (String × JVal) → String → Option JVal
  | [], _ => Option.none
  | (k, v) :: rest, key => if k = key then some v else jsonLookup rest key

/-- Modelled from the spec: grub_json_getvalue — fetch an object's member. -/
def grub_json_getvalue : JVal → String → Option JVal
  | .obj ms, key => jsonLookup ms key
  | _, _ => Option.none

/-- Modelled from the spec: grub_json_getstring with a key — member must be a string. -/
def grub_json_getstring (j : JVal) (key : String) : Option String :=
  match grub_json_getvalue j key with
  | some (.str s) => some s
  | _ => Option.none

/-- Decimal digit parser used to read numbers from JSON token text. -/
def parseDigits : List Char → Nat → Option Nat
  | [], acc => some acc
  | c :: rest, acc =>
      if c.isDigit then parseDigits rest (acc * 10 + (c.toNat - 48)) else Option.none

/-- Parse a non-empty all-digit string as a Nat. -/
def parseNat (s : String) : Option Nat :=
  match s.data with
  | [] => Option.none
  | l => parseDigits l 0

/-- Modelled from the spec: grub_json_getuint64 applied directly to a token
(NULL key): number tokens and numeric strings are read via grub_strtoull;
on a (key, value) object pair the key string itself is the token text. -/
def grub_json_getuint64D : JVal → Option Nat
  | .num n => if 0 ≤ n then some n.toNat else Option.none
  | .str s => parseNat s
  | .kv k _ => parseNat k
  | _ => Option.none

/-- Modelled from the spec: grub_json_getuint64 with a key. -/
def grub_json_getuint64 (j : JVal) (key : String) : Option Nat :=
  match grub_json_getvalue j key with
  | some v => grub_json_getuint64D v
  | _ => Option.none

/-- Modelled from the spec: grub_json_getint64 with a key. -/
def grub_json_getint64 (j : JVal) (key : String) : Option Int :=
  match grub_json_getvalue j key with
  | some (.num n) => some n
  | some (.str s) => (parseNat s).map Int.ofNat
  | _ => Option.none

/-- Modelled from the spec: grub_json_getchild — i-th element of an array, i-th
(key, value) pair of an object, or the value under a key token. -/
def grub_json_getchild : JVal → Nat → Option JVal
  | .arr xs, i => xs.get? i
  | .obj ms, i => (ms.get? i).map (fun p => .kv p.1 p.2)
  | .kv _ v, 0 => some v
  | _, _ => Option.none

/-- Modelled from the spec: grub_json_getsize — number of children. -/
def grub_json_getsize : JVal → Option Nat
  | .arr xs => some xs.length
  | .obj ms => some ms.length
  | _ => Option.none

/-- 2^64, the modulus of grub_uint64_t / grub_size_t arithmetic. -/
def U64 : Nat := 2 ^ 64

/-- C conversion of a signed 64-bit value to grub_size_t / grub_uint64_t
(reduction modulo 2^64, written as a literal so kernel evaluation works). -/
def toSizeT (i : Int) : Nat := (i % (18446744073709551616 : Int)).toNat

/-- C conversion of a signed 64-bit value to unsigned int (modulo 2^32). -/
def toU32 (i : Int) : Nat := (i % (4294967296 : Int)).toNat

/-- u64 subtraction modulo 2^64. -/
def u64sub (a b : Nat) : Nat := (a % U64 + U64 - b % U64) % U64

/-- u64 addition modulo 2^64. -/
def u64add (a b : Nat) : Nat := (a % U64 + b % U64) % U64

/-- Byte i (little-endian position) of a machine word. -/
def byteAt (x i : Nat) : Nat := (x >>> (8 * i)) % 256

/-- grub_be_to_cpu64 on a little-endian machine: swap the 8 bytes of a u64. -/
def bswap64 (x : Nat) : Nat :=
  byteAt x 0 * 2 ^ 56 + byteAt x 1 * 2 ^ 48 + byteAt x 2 * 2 ^ 40 +
  byteAt x 3 * 2 ^ 32 + byteAt x 4 * 2 ^ 24 + byteAt x 5 * 2 ^ 16 +
  byteAt x 6 * 2 ^ 8 + byteAt x 7

/-- grub_be_to_cpu16 on a little-endian machine: swap the 2 bytes of a u16. -/
def bswap16 (x : Nat) : Nat := (x % 256) * 2 ^ 8 + byteAt x 1

/-- "LUKS\xBA\xBE" as bytes. -/
def LUKS_MAGIC_1ST : List Nat := [0x4C, 0x55, 0x4B, 0x53, 0xBA, 0xBE]

/-- "SKUL\xBA\xBE" as bytes. -/
def LUKS_MAGIC_2ND : List Nat := [0x53, 0x4B, 0x55, 0x4C, 0xBA, 0xBE]

/-- Modelled from the spec: LUKS_LOG_SECTOR_SIZE is defined in
include/grub/cryptodisk.h (outside src/); §4.D step 5 fixes the keyslot
area sector size at 512 bytes, i.e. the log is 9. -/
def LUKS_LOG_SECTOR_SIZE : Nat := 9

/-- Size of the interactive passphrase buffer. -/
def MAX_PASSPHRASE : Nat := 256

/-- The C expression `(1 << bit)` with int-typed 1 on a 32-bit int target:
defined (value 2^bit) only for bit ≤ 30; for bit = 31 the shift overflows a
signed int and for bit ≥ 32 the shift count reaches the promoted width —
both undefined behaviour (C11 6.5.7). -/
def c_shl1 (bit : Nat) : Option Nat :=
  if bit ≤ 30 then some (2 ^ bit) else Option.none

/-- Floor base-2 logarithm by fuelled halving (structural recursion, so the
kernel can evaluate it; 32 halvings cover every 32-bit value). -/
def log2floor : Nat → Nat → Nat
  | 0, _ => 0
  | fuel + 1, n => if n ≤ 1 then 0 else log2floor fuel (n / 2) + 1

/-- `sizeof(unsigned) * 8 - __builtin_clz((unsigned) n) - 1`: floor log2 of a
nonzero 32-bit value; clz(0) is undefined behaviour. -/
def c_log2_u32 (n : Nat) : Option Nat :=
  if n = 0 then Option.none else some (log2floor 32 n)

/-- grub_strtoull with base 10 on the leading digits of a string (0 if none). -/
def parseDecPrefix (s : String) : Nat :=
  ((s.data.takeWhile (fun c => c.isDigit)).foldl (fun a c => a * 10 + (c.toNat - 48)) 0)

/-- First 32 chars of a string: the `char cipher[32]` buffer filled by
grub_strncpy from the encryption field. -/
def trunc32 (s : String) : String := String.mk (s.data.take 32)

/-- Split a cipher spec string at its first '-' (grub_memchr + NUL overwrite):
none when there is no '-'. -/
def splitDash (s : String) : Option (String × String) :=
  if s.data.contains '-' then
    some (String.mk (s.data.takeWhile (fun c => c ≠ '-')),
          String.mk ((s.data.dropWhile (fun c => c ≠ '-')).tail)
         )
  else Option.none

/-- The kdf.type enum of grub_luks2_keyslot (argon2id is folded into ARGON2I,
as the source does). -/
inductive KdfType
  | argon2i
  | pbkdf2
deriving DecidableEq, Repr

/-- The kdf parameter union of grub_luks2_keyslot, modelled as a sum.  The C
union overlays the two arms in memory; a partial write into one arm is
modelled as switching to that arm with unwritten fields set to 0/"" (the
overlay bytes are not representable; no claim depends on them). -/
inductive KdfU
  | argon2i (time memory cpus : Int)
  | pbkdf2 (hash : String) (iterations : Int)
deriving DecidableEq, Repr

/-- Write kdf.u.argon2i.time. -/
def setArgonTime : KdfU → Int → KdfU
  | .argon2i _ m c, t => .argon2i t m c
  | .pbkdf2 _ _, t => .argon2i t 0 0

/-- Write kdf.u.argon2i.memory. -/
def setArgonMemory : KdfU → Int → KdfU
  | .argon2i t _ c, m => .argon2i t m c
  | .pbkdf2 _ _, m => .argon2i 0 m 0

/-- Write kdf.u.argon2i.cpus. -/
def setArgonCpus : KdfU → Int → KdfU
  | .argon2i t m _, c => .argon2i t m c
  | .pbkdf2 _ _, c => .argon2i 0 0 c

/-- Write kdf.u.pbkdf2.hash. -/
def setPbkdf2Hash : KdfU → String → KdfU
  | .pbkdf2 _ i, h => .pbkdf2 h i
  | .argon2i _ _ _, h => .pbkdf2 h 0

/-- Write kdf.u.pbkdf2.iterations. -/
def setPbkdf2Iter : KdfU → Int → KdfU
  | .pbkdf2 h _, i => .pbkdf2 h i
  | .argon2i _ _ _, i => .pbkdf2 "" i

/-- The kdf.u.pbkdf2.hash field as the C code reads it through the union (the
argon2i arm stands for unspecified overlay bytes, rendered as ""). -/
def KdfU.pbHash : KdfU → String
  | .pbkdf2 h _ => h
  | .argon2i _ _ _ => ""

/-- The kdf.u.pbkdf2.iterations field read through the union. -/
def KdfU.pbIter : KdfU → Int
  | .pbkdf2 _ i => i
  | .argon2i _ _ _ => 0

/-- grub_luks2_keyslot, flattened (area and af sub-structs inlined). -/
structure Keyslot where
  key_size : Int := 0
  priority : Int := 0
  area_encryption : String := ""
  area_offset : Nat := 0
  area_size : Nat := 0
  area_key_size : Int := 0
  af_hash : String := ""
  af_stripes : Int := 0
  kdf_type : KdfType := .argon2i
  kdf_salt : String := ""
  kdf_u : KdfU := .argon2i 0 0 0
deriving DecidableEq, Repr

/-- grub_luks2_segment. -/
structure Segment where
  offset : Nat := 0
  size : String := ""
  encryption : String := ""
  sector_size : Int := 0
deriving DecidableEq, Repr

/-- grub_luks2_digest; keyslots and segments are 64-bit reference bitmaps. -/
structure Digest where
  keyslots : Nat := 0
  segments : Nat := 0
  salt : String := ""
  digest : String := ""
  hash : String := ""
  iterations : Int := 0
deriving DecidableEq, Repr

/-- The KDF-type dispatch of luks2_parse_keyslot (source lines 161-177). -/
def luks2_parse_keyslot_kdf_u (out : Keyslot) (kdf : JVal) (kty : String) :
    GrubErr × Keyslot :=
  if kty = "argon2i" ∨ kty = "argon2id" then
    let out := { out with kdf_type := .argon2i }
    match grub_json_getint64 kdf "time" with
    | Option.none => (.badArgument "Missing Argon2i parameters", out)
    | some t =>
      let out := { out with kdf_u := setArgonTime out.kdf_u t }
      match grub_json_getint64 kdf "memory" with
      | Option.none => (.badArgument "Missing Argon2i parameters", out)
      | some m =>
        let out := { out with kdf_u := setArgonMemory out.kdf_u m }
        match grub_json_getint64 kdf "cpus" with
        | Option.none => (.badArgument "Missing Argon2i parameters", out)
        | some c =>
          (.none, { out with kdf_u := setArgonCpus out.kdf_u c })
  else if kty = "pbkdf2" then
    let out := { out with kdf_type := .pbkdf2 }
    match grub_json_getstring kdf "hash" with
    | Option.none => (.badArgument "Missing PBKDF2 parameters", out)
    | some h =>
      let out := { out with kdf_u := setPbkdf2Hash out.kdf_u h }
      match grub_json_getint64 kdf "iterations" with
      | Option.none => (.badArgument "Missing PBKDF2 parameters", out)
      | some i =>
        (.none, { out with kdf_u := setPbkdf2Iter out.kdf_u i })
  else (.badArgument "Unsupported KDF type", out)

/-- Continuation of luks2_parse_keyslot from the KDF type dispatch (source
lines 161-188): fills the kdf union, then the af sub-struct. -/
def luks2_parse_keyslot_kdf (out : Keyslot) (keyslot kdf : JVal) (kty : String) :
    GrubErr × Keyslot :=
  match luks2_parse_keyslot_kdf_u out kdf kty with
  | (GrubErr.none, out) =>
    (match grub_json_getvalue keyslot "af" with
     | Option.none => (.badArgument "missing or invalid area", out)
     | some af =>
       match grub_json_getstring af "type" with
       | Option.none => (.badArgument "missing or invalid area", out)
       | some fty =>
         if fty = "luks1" then
           match grub_json_getint64 af "stripes" with
           | Option.none => (.badArgument "Missing AF parameters", out)
           | some st =>
             let out := { out with af_stripes := st }
             match grub_json_getstring af "hash" with
             | Option.none => (.badArgument "Missing AF parameters", out)
             | some fh =>
               (.none, { out with af_hash := fh })
         else (.badArgument "Unsupported AF type", out))
  | (e, out) => (e, out)

/-- luks2_parse_keyslot: reads the JSON object field by field into `out`,
returning at the first failing check exactly as the source does (lines
131-189); on such a return the fields already read stay written. -/
def luks2_parse_keyslot (out : Keyslot) (keyslot : JVal) : GrubErr × Keyslot :=
  match grub_json_getstring keyslot "type" with
  | Option.none => (.badArgument "Missing or invalid keyslot", out)
  | some ty =>
    if ty ≠ "luks2" then (.badArgument "Unsupported keyslot type", out)
    else match grub_json_getint64 keyslot "key_size" with
    | Option.none => (.badArgument "Missing keyslot information", out)
    | some ks =>
      let out := { out with key_size := ks }
      let out :=
        match grub_json_getint64 keyslot "priority" with
        | Option.none => { out with priority := 1 }
        | some p => { out with priority := p }
      match grub_json_getvalue keyslot "area" with
      | Option.none => (.badArgument "Missing or invalid key area", out)
      | some area =>
        match grub_json_getstring area "type" with
        | Option.none => (.badArgument "Missing or invalid key area", out)
        | some aty =>
          if aty ≠ "raw" then (.badArgument "Unsupported key area type", out)
          else match grub_json_getuint64 area "offset" with
          | Option.none => (.badArgument "Missing key area information", out)
          | some aoff =>
            let out := { out with area_offset := aoff }
            match grub_json_getuint64 area "size" with
            | Option.none => (.badArgument "Missing key area information", out)
            | some asz =>
              let out := { out with area_size := asz }
              match grub_json_getstring area "encryption" with
              | Option.none => (.badArgument "Missing key area information", out)
              | some aenc =>
                let out := { out with area_encryption := aenc }
                match grub_json_getint64 area "key_size" with
                | Option.none => (.badArgument "Missing key area information", out)
                | some aks =>
                  let out := { out with area_key_size := aks }
                  match grub_json_getvalue keyslot "kdf" with
                  | Option.none => (.badArgument "Missing or invalid KDF", out)
                  | some kdf =>
                    match grub_json_getstring kdf "type" with
                    | Option.none => (.badArgument "Missing or invalid KDF", out)
                    | some kty =>
                      match grub_json_getstring kdf "salt" with
                      | Option.none => (.badArgument "Missing or invalid KDF", out)
                      | some ksalt =>
                        let out := { out with kdf_salt := ksalt }
                        luks2_parse_keyslot_kdf out keyslot kdf kty

/-- luks2_parse_segment (source lines 191-208). -/
def luks2_parse_segment (out : Segment) (segment : JVal) : GrubErr × Segment :=
  match grub_json_getstring segment "type" with
  | Option.none => (.badArgument "Invalid segment type", out)
  | some ty =>
    if ty ≠ "crypt" then (.badArgument "Unsupported segment type", out)
    else match grub_json_getuint64 segment "offset" with
    | Option.none => (.badArgument "Missing segment parameters", out)
    | some off =>
      let out := { out with offset := off }
      match grub_json_getstring segment "size" with
      | Option.none => (.badArgument "Missing segment parameters", out)
      | some sz =>
        let out := { out with size := sz }
        match grub_json_getstring segment "encryption" with
        | Option.none => (.badArgument "Missing segment parameters", out)
        | some enc =>
          let out := { out with encryption := enc }
          match grub_json_getint64 segment "sector_size" with
          | Option.none => (.badArgument "Missing segment parameters", out)
          | some ss =>
            (.none, { out with sector_size := ss })

/-- Result of one reference-array loop of luks2_parse_digest: the final mask,
an element failure (with the mask accumulated so far, since `out` is updated
per element), or undefined behaviour from the int-typed shift. -/
inductive BitOut
  | ok (mask : Nat)
  | err (mask : Nat)
  | undef (mask : Nat)
deriving DecidableEq, Repr

/-- The element loop of luks2_parse_digest (source lines 236-242 resp.
249-255): for each array element read it as an unsigned integer `bit` and do
`mask |= (1 << bit)`.  Iterates `n` times starting at element `i`. -/
def bitLoop (arr : JVal) : Nat → Nat → Nat → BitOut
  | acc, _, 0 => .ok acc
  | acc, i, n + 1 =>
    match grub_json_getchild arr i with
    | Option.none => .err acc
    | some o =>
      match grub_json_getuint64D o with
      | Option.none => .err acc
      | some bit =>
        match c_shl1 bit with
        | Option.none => .undef acc
        | some m => bitLoop arr (acc ||| m) (i + 1) n

/-- luks2_parse_digest (source lines 210-258); the reference bitmaps are built
with the int-typed shift `(1 << bit)`, so an element ≥ 31 is undefined
behaviour (`CRet.undef`). -/
def luks2_parse_digest (out : Digest) (digest : JVal) : CRet × Digest :=
  match grub_json_getstring digest "type" with
  | Option.none => (.ret (.badArgument "Invalid digest type"), out)
  | some ty =>
    if ty ≠ "pbkdf2" then (.ret (.badArgument "Unsupported digest type"), out)
    else match grub_json_getvalue digest "segments" with
    | Option.none => (.ret (.badArgument "Missing digest parameters"), out)
    | some segments =>
      match grub_json_getvalue digest "keyslots" with
      | Option.none => (.ret (.badArgument "Missing digest parameters"), out)
      | some keyslots =>
        match grub_json_getstring digest "salt" with
        | Option.none => (.ret (.badArgument "Missing digest parameters"), out)
        | some salt =>
          let out := { out with salt := salt }
          match grub_json_getstring digest "digest" with
          | Option.none => (.ret (.badArgument "Missing digest parameters"), out)
          | some dg =>
            let out := { out with digest := dg }
            match grub_json_getstring digest "hash" with
            | Option.none => (.ret (.badArgument "Missing digest parameters"), out)
            | some h =>
              let out := { out with hash := h }
              match grub_json_getint64 digest "iterations" with
              | Option.none => (.ret (.badArgument "Missing digest parameters"), out)
              | some it =>
                let out := { out with iterations := it }
                match grub_json_getsize segments with
                | Option.none => (.ret (.badArgument "Digest references no segments"), out)
                | some segsize =>
                  match bitLoop segments 0 0 segsize with
                  | .err m => (.ret (.badArgument "Invalid segment"), { out with segments := m })
                  | .undef m => (.undef, { out with segments := m })
                  | .ok m =>
                    let out := { out with segments := m }
                    match grub_json_getsize keyslots with
                    | Option.none => (.ret (.badArgument "Digest references no keyslots"), out)
                    | some kssize =>
                      match bitLoop keyslots 0 0 kssize with
                      | .err m => (.ret (.badArgument "Invalid keyslot"), { out with keyslots := m })
                      | .undef m => (.undef, { out with keyslots := m })
                      | .ok m => (.ret .none, { out with keyslots := m })

/-- The binary LUKS2 header (grub_luks2_header).  Multi-byte fields hold the
raw on-disk u64/u16 values as read into memory on a little-endian machine;
`bswap64`/`bswap16` decode them, as grub_be_to_cpu does.  Fields the embedded
functions never touch (label, csum, ...) are omitted. -/
structure Luks2Header where
  magic : List Nat := []
  version : Nat := 0
  hdr_size : Nat := 0
  seqid : Nat := 0
  hdr_offset : Nat := 0
deriving DecidableEq, Repr

/-- Events recorded by the embedding for observations the claims are about. -/
inductive Event
  | decryptCall (len startSector logSectorSize : Nat)
  | freeSplitKey (contents : List Nat)
deriving DecidableEq, Repr

/-- Oracles for the external primitives consumed by luks2.c (spec §6): disk or
detached-header reads (the source reads through either grub_disk_read or
grub_file_read; §9 says to model the pair as one read capability), message
digests, PBKDF2, the cryptodisk cipher interface, base64, the JSON parser,
the interactive prompt, and geometry of the source disk.  `setcipher` returns
a grub_err_t, `setkey` and the crypto routines return an optional gcry error
code. -/
structure Prims where
  readPrimary : Except GrubErr Luks2Header
  readSecondary : Nat → Except GrubErr Luks2Header
  readBytes : Nat → Nat → Except GrubErr (List Nat)
  jsonParse : List Nat → Nat → Except GrubErr JVal
  base64 : String → Option (List Nat)
  mdOk : String → Bool
  pbkdf2 : String → List Nat → List Nat → Int → Nat → Except Nat (List Nat)
  setcipher : String → String → GrubErr
  setkey : List Nat → Nat → Option Nat
  decrypt : List Nat → Nat → Nat → Nat → Except Nat (List Nat)
  afMerge : String → List Nat → Nat → Nat → Except Nat (List Nat)
  malloc : Nat → Bool
  passwordGet : Option (List Nat)
  diskSize : Nat
  srcLogSectorSize : Nat

/-- Primary header valid: LUKS magic and big-endian version 2 (source line 337). -/
def validPrimary (h : Luks2Header) : Prop :=
  h.magic = LUKS_MAGIC_1ST ∧ bswap16 h.version = 2

/-- Secondary header valid: SKUL magic and big-endian version 2 (source line 356). -/
def validSecondary (h : Luks2Header) : Prop :=
  h.magic = LUKS_MAGIC_2ND ∧ bswap16 h.version = 2

instance (h : Luks2Header) : Decidable (validPrimary h) := by
  unfold validPrimary; infer_instance

instance (h : Luks2Header) : Decidable (validSecondary h) := by
  unfold validSecondary; infer_instance

/-- luks2_read_header (source lines 316-365): read the primary header, check
its magic/version, read the secondary at offset be64(primary.hdr_size), check
it, and return the copy with the larger be64 seqid (primary on ties). -/
def luks2_read_header (P : Prims) : Except GrubErr Luks2Header :=
  match P.readPrimary with
  | .error e => .error e
  | .ok primary =>
    if ¬ validPrimary primary then .error (.badSignature "Bad primary signature")
    else match P.readSecondary (bswap64 primary.hdr_size) with
    | .error e => .error e
    | .ok secondary =>
      if ¬ validSecondary secondary then .error (.badSignature "Bad secondary signature")
      else if bswap64 primary.seqid < bswap64 secondary.seqid then .ok secondary
      else .ok primary

/-- The digest scan of luks2_get_keyslot (source lines 280-290): walk the
digests container from child `i` for `n` more children, parse each into the
threaded `d`, and break at the first digest whose keyslots bitmap has bit
`kk` set — tested with the int-typed shift `(1 << keyslot_key)`.  Returns
(status, threaded digest, found flag). -/
def scanDigests (digests : JVal) (kk : Nat) : Digest → Nat → Nat → CRet × Digest × Bool
  | d, _, 0 => (.ret .none, d, false)
  | d, i, n + 1 =>
    match grub_json_getchild digests i with
    | Option.none => (.ret (.badArgument "Could not parse digest index"), d, false)
    | some dig =>
      match grub_json_getuint64D dig with
      | Option.none => (.ret (.badArgument "Could not parse digest index"), d, false)
      | some _dkey =>
        match grub_json_getchild dig 0 with
        | Option.none => (.ret (.badArgument "Could not parse digest index"), d, false)
        | some dval =>
          match luks2_parse_digest d dval with
          | (.undef, d') => (.undef, d', false)
          | (.ret GrubErr.none, d') =>
            (match c_shl1 kk with
             | Option.none => (.undef, d', false)
             | some m =>
               if d'.keyslots &&& m = 0 then scanDigests digests kk d' (i + 1) n
               else (.ret .none, d', true))
          | (.ret _, d') => (.ret (.badArgument "Could not parse digest index"), d', false)

/-- The segment scan of luks2_get_keyslot (source lines 298-308): walk the
segments container, parse each into the threaded `s`, and break at the first
segment whose integer key has its bit set in the digest's segments bitmap —
again via the int-typed shift `(1 << segment_key)`. -/
def scanSegments (segments : JVal) (dseg : Nat) : Segment → Nat → Nat → CRet × Segment × Bool
  | s, _, 0 => (.ret .none, s, false)
  | s, i, n + 1 =>
    match grub_json_getchild segments i with
    | Option.none => (.ret (.badArgument "Could not parse segment index"), s, false)
    | some sg =>
      match grub_json_getuint64D sg with
      | Option.none => (.ret (.badArgument "Could not parse segment index"), s, false)
      | some skey =>
        match grub_json_getchild sg 0 with
        | Option.none => (.ret (.badArgument "Could not parse segment index"), s, false)
        | some sval =>
          match luks2_parse_segment s sval with
          | (GrubErr.none, s') =>
            (match c_shl1 skey with
             | Option.none => (.undef, s', false)
             | some m =>
               if dseg &&& m = 0 then scanSegments segments dseg s' (i + 1) n
               else (.ret .none, s', true))
          | (_, s') => (.ret (.badArgument "Could not parse segment index"), s', false)

/-- luks2_get_keyslot after the keyslot child has been fetched: read its key,
parse its value as a keyslot, then resolve the matching digest and segment
(source lines 271-312). -/
def gkFromChild (k : Keyslot) (d : Digest) (s : Segment) (root child : JVal) :
    CRet × Keyslot × Digest × Segment :=
  match grub_json_getuint64D child with
  | Option.none => (.ret (.badArgument "Could not parse keyslot index"), k, d, s)
  | some keyslot_key =>
    match grub_json_getchild child 0 with
    | Option.none => (.ret (.badArgument "Could not parse keyslot index"), k, d, s)
    | some kval =>
      match luks2_parse_keyslot k kval with
      | (GrubErr.none, k') =>
        (match grub_json_getvalue root "digests" with
         | Option.none => (.ret (.badArgument "Could not get digests"), k', d, s)
         | some digests =>
           match grub_json_getsize digests with
           | Option.none => (.ret (.badArgument "Could not get digests"), k', d, s)
           | some dsize =>
             match scanDigests digests keyslot_key d 0 dsize with
             | (.undef, d', _) => (.undef, k', d', s)
             | (.ret GrubErr.none, d', false) => (.ret (.fileNotFound "No digest for keyslot"), k', d', s)
             | (.ret GrubErr.none, d', true) =>
               (match grub_json_getvalue root "segments" with
                | Option.none => (.ret (.badArgument "Could not get segments"), k', d', s)
                | some segments =>
                  match grub_json_getsize segments with
                  | Option.none => (.ret (.badArgument "Could not get segments"), k', d', s)
                  | some ssize =>
                    match scanSegments segments d'.segments s 0 ssize with
                    | (.undef, s', _) => (.undef, k', d', s')
                    | (.ret GrubErr.none, s', false) => (.ret (.fileNotFound "No segment for digest"), k', d', s')
                    | (.ret GrubErr.none, s', true) => (.ret .none, k', d', s')
                    | (.ret e2, s', _) => (.ret e2, k', d', s'))
             | (.ret e, d', _) => (.ret e, k', d', s))
      | (_, k') => (.ret (.badArgument "Could not parse keyslot index"), k', d, s)

/-- luks2_get_keyslot (source lines 260-313): fetch the idx-th child of the
keyslots object, then resolve keyslot, digest and segment.  `k`, `d`, `s` are
the caller's records, written in place like the C out-parameters. -/
def luks2_get_keyslot (k : Keyslot) (d : Digest) (s : Segment) (root : JVal) (idx : Nat) :
    CRet × Keyslot × Digest × Segment :=
  match grub_json_getvalue root "keyslots" with
  | Option.none => (.ret (.badArgument "Could not parse keyslot index"), k, d, s)
  | some keyslots =>
    match grub_json_getchild keyslots idx with
    | Option.none => (.ret (.badArgument "Could not parse keyslot index"), k, d, s)
    | some child => gkFromChild k d s root child

/-- luks2_verify_key (source lines 397-432): decode digest and salt, look up
the hash, PBKDF2 the candidate key and compare against the stored digest. -/
def luks2_verify_key (P : Prims) (d : Digest) (candidate : List Nat) (len : Nat) : GrubErr :=
  match P.base64 d.digest with
  | Option.none => .badArgument "Invalid digest"
  | some dig =>
    match P.base64 d.salt with
    | Option.none => .badArgument "Invalid digest salt"
    | some salt =>
      match P.mdOk d.hash with
      | false => .fileNotFound "Could not load digest hash"
      | true =>
        match P.pbkdf2 d.hash (candidate.take len) salt d.iterations dig.length with
        | .error g => .crypto g
        | .ok cd => if cd = dig then .none else .accessDenied "Mismatching digests"

/-- The state of the crypto-disk object (grub_cryptodisk_t) as far as luks2.c
writes it: the configured cipher pair, the installed key, and the sector
layout. -/
structure Crypt where
  cipher : Option (String × String) := Option.none
  key : List Nat := []
  keyLen : Option Nat := Option.none
  offset_sectors : Nat := 0
  log_sector_size : Nat := 0
  total_sectors : Nat := 0
deriving DecidableEq, Repr

/-- Result of luks2_decrypt_key: the grub_err_t, the crypto-disk state after
the cipher/area-key installs, the candidate master key written to out_key,
and the recorded events (the sector-decrypt call parameters and the contents
of the heap split-key buffer at the moment it is freed). -/
structure DecOut where
  ret : GrubErr
  crypt : Crypt
  key : List Nat
  events : List Event
deriving Repr

/-- luks2_decrypt_key (source lines 434-554): derive the area key by PBKDF2
(Argon2 rejected), split the area encryption spec, configure the crypto-disk
cipher and area key, read the key area, decrypt it with 512-byte sectors from
IV 0, and AF-merge into the candidate master key.  The split-key buffer is
freed at `err:` without being zeroed; its contents at free time are recorded. -/
def luks2_decrypt_key (P : Prims) (crypt : Crypt) (k : Keyslot) (passphrase : List Nat) :
    DecOut :=
  match P.base64 k.kdf_salt with
  | Option.none => ⟨.badArgument "Invalid keyslot salt", crypt, [], []⟩
  | some salt =>
    match k.kdf_type with
    | .argon2i => ⟨.badArgument "Argon2 not supported", crypt, [], []⟩
    | .pbkdf2 =>
      let kh := k.kdf_u.pbHash
      let kiter := k.kdf_u.pbIter
      match P.mdOk kh with
      | false => ⟨.fileNotFound "Could not load kdf hash", crypt, [], []⟩
      | true =>
        match P.pbkdf2 kh passphrase salt kiter (toSizeT k.area_key_size) with
        | .error g => ⟨.crypto g, crypt, [], []⟩
        | .ok area_key =>
          match splitDash (trunc32 k.area_encryption) with
          | Option.none => ⟨.badArgument "Invalid encryption", crypt, [], []⟩
          | some (cname, cmode) =>
            match P.setcipher cname cmode with
            | GrubErr.none =>
                let crypt := { crypt with cipher := some (cname, cmode) }
                match P.setkey area_key (toSizeT k.area_key_size) with
                | some g => ⟨.crypto g, crypt, [], []⟩
                | Option.none =>
                  let crypt := { crypt with key := area_key.take (toSizeT k.area_key_size),
                                            keyLen := some (toSizeT k.area_key_size) }
                  match P.malloc k.area_size with
                  | false => ⟨.outOfMemory, crypt, [], []⟩
                  | true =>
                    match P.readBytes k.area_offset k.area_size with
                    | .error e2 => ⟨e2, crypt, [], [.freeSplitKey []]⟩
                    | .ok raw =>
                      let split0 := (raw ++ List.replicate (k.area_size - raw.length) 0).take k.area_size
                      match P.decrypt split0 k.area_size 0 LUKS_LOG_SECTOR_SIZE with
                      | .error g =>
                        ⟨.crypto g, crypt, [],
                          [.decryptCall k.area_size 0 LUKS_LOG_SECTOR_SIZE, .freeSplitKey split0]⟩
                      | .ok dec =>
                        match P.mdOk k.af_hash with
                        | false =>
                          ⟨.fileNotFound "Could not load af hash", crypt, [],
                            [.decryptCall k.area_size 0 LUKS_LOG_SECTOR_SIZE, .freeSplitKey dec]⟩
                        | true =>
                          match P.afMerge k.af_hash dec (toSizeT k.key_size) (toSizeT k.af_stripes) with
                          | .error g =>
                            ⟨.crypto g, crypt, [],
                              [.decryptCall k.area_size 0 LUKS_LOG_SECTOR_SIZE, .freeSplitKey dec]⟩
                          | .ok mk =>
                            ⟨.none, crypt, mk,
                              [.decryptCall k.area_size 0 LUKS_LOG_SECTOR_SIZE, .freeSplitKey dec]⟩
            | e => ⟨e, crypt, [], []⟩

/-- The per-trial sector-layout configuration of the crypto disk (source
lines 662-674): offset_sectors by u64 division, log_sector_size from the
(already checked nonzero) 32-bit cast of sector_size, and total_sectors
either from the source disk size ("dynamic") or from the decimal size
string. -/
def configSegment (P : Prims) (c : Crypt) (s : Segment) (lss : Nat) : Crypt :=
  let os := s.offset / toSizeT s.sector_size
  let ts :=
    if s.size = "dynamic" then
      u64sub (P.diskSize >>> (lss - P.srcLogSectorSize)) os
    else
      parseDecPrefix s.size >>> lss
  { c with offset_sectors := os, log_sector_size := lss, total_sectors := ts }

/-- offset_sectors alone (written before the clz whose argument may make the
rest undefined). -/
def configOffsetOnly (c : Crypt) (s : Segment) : Crypt :=
  { c with offset_sectors := s.offset / toSizeT s.sector_size }

/-- The loop-carried locals of luks2_recover_key's trial loop: the keyslot,
digest and segment records (reused across iterations like the C locals), the
crypto-disk state, the indices at which luks2_decrypt_key was invoked, and
the accumulated events. -/
structure LoopSt where
  k : Keyslot := {}
  d : Digest := {}
  s : Segment := {}
  crypt : Crypt := {}
  attempted : List Nat := []
  events : List Event := []
deriving Repr

/-- A successful trial: the slot index that opened, the keyslot and segment
records of that slot, and the candidate master key. -/
def Winner : Type := Nat × Keyslot × Segment × List Nat

/-- The keyslot trial loop of luks2_recover_key (source lines 640-699),
iterating `n` slots starting at index `i`: resolve the slot (failures skip to
the next slot), skip priority-0 slots, configure the sector layout from the
slot's segment, derive and decrypt the candidate key, verify it, and break on
the first success. -/
def trialLoop (P : Prims) (json : JVal) (pass : List Nat) :
    LoopSt → Nat → Nat → CRet × LoopSt × Option Winner
  | st, _, 0 => (.ret .none, st, Option.none)
  | st, i, n + 1 =>
    match luks2_get_keyslot st.k st.d st.s json i with
    | (.undef, k', d', s') => (.undef, { st with k := k', d := d', s := s' }, Option.none)
    | (.ret GrubErr.none, k', d', s') =>
      let st := { st with k := k', d := d', s := s' }
      if st.k.priority = 0 then trialLoop P json pass st (i + 1) n
      else
        match c_log2_u32 (toU32 st.s.sector_size) with
        | Option.none =>
          (.undef, { st with crypt := configOffsetOnly st.crypt st.s }, Option.none)
        | some lss =>
          let st := { st with crypt := configSegment P st.crypt st.s lss }
          let dec := luks2_decrypt_key P st.crypt st.k pass
          let st := { st with crypt := dec.crypt, events := st.events ++ dec.events,
                              attempted := st.attempted ++ [i] }
          match dec.ret with
          | GrubErr.none =>
            (match luks2_verify_key P st.d dec.key (toSizeT st.k.key_size) with
             | GrubErr.none => (.ret .none, st, some (i, st.k, st.s, dec.key))
             | _ => trialLoop P json pass st (i + 1) n)
          | _ => trialLoop P json pass st (i + 1) n
    | (.ret _, k', d', s') =>
      trialLoop P json pass { st with k := k', d := d', s := s' } (i + 1) n

/-- Result of one unlock attempt from parsed JSON metadata on: final status,
crypto-disk state, trial trace, the slot that opened, the (key bytes, length)
passed to the final master-key install, and the decrypt-level events. -/
structure AttemptOut where
  ret : CRet
  crypt : Crypt
  attempted : List Nat
  opened : Option Nat
  masterCall : Option (List Nat × Nat)
  events : List Event
deriving Repr

/-- The tail of luks2_recover_key after the trial loop (source lines 700-724):
no success means AccessDenied("Invalid passphrase"); otherwise split the
segment's encryption spec, configure the cipher and install the candidate
master key of length keyslot.key_size. -/
def afterLoop (P : Prims) (lr : CRet × LoopSt × Option Winner) : AttemptOut :=
  match lr with
  | (.undef, st, w) => ⟨.undef, st.crypt, st.attempted, Option.none, Option.none, st.events⟩
  | (.ret _, st, Option.none) =>
    ⟨.ret (.accessDenied "Invalid passphrase"), st.crypt, st.attempted,
      Option.none, Option.none, st.events⟩
  | (.ret _, st, some (i, k, s, key)) =>
    let clen := toSizeT k.key_size
    if clen = 0 then
      ⟨.ret (.accessDenied "Invalid passphrase"), st.crypt, st.attempted,
        some i, Option.none, st.events⟩
    else match splitDash (trunc32 s.encryption) with
    | Option.none =>
      ⟨.ret (.badArgument "Invalid encryption"), st.crypt, st.attempted,
        some i, Option.none, st.events⟩
    | some (cname, cmode) =>
      match P.setcipher cname cmode with
      | GrubErr.none =>
        let crypt := { st.crypt with cipher := some (cname, cmode) }
        (match P.setkey key clen with
         | some g =>
           ⟨.ret (.crypto g), crypt, st.attempted, some i, some (key, clen), st.events⟩
         | Option.none =>
           ⟨.ret .none, { crypt with key := key.take clen, keyLen := some clen },
             st.attempted, some i, some (key, clen), st.events⟩)
      | e => ⟨.ret e, st.crypt, st.attempted, some i, Option.none, st.events⟩

/-- One unlock attempt of luks2_recover_key from parsed JSON metadata on
(source lines 632-724): fetch the keyslots object, run the trial loop over
its children, then install the winning key. -/
def recoverWithJson (P : Prims) (crypt : Crypt) (json : JVal) (pass : List Nat) : AttemptOut :=
  match grub_json_getvalue json "keyslots" with
  | Option.none =>
    ⟨.ret (.badArgument "Could not get keyslots"), crypt, [], Option.none, Option.none, []⟩
  | some keyslots =>
    match grub_json_getsize keyslots with
    | Option.none =>
      ⟨.ret (.badArgument "Could not get keyslots"), crypt, [], Option.none, Option.none, []⟩
    | some size =>
      afterLoop P (trialLoop P json pass { crypt := crypt } 0 size)

/-- Full result of luks2_recover_key: the AttemptOut fields plus the
(allocated length, declared length) pair of the grub_json_parse call and the
contents of the 256-byte interactive passphrase buffer at function exit. -/
structure RecoverOut where
  ret : CRet
  crypt : Crypt
  attempted : List Nat
  opened : Option Nat
  masterCall : Option (List Nat × Nat)
  jsonCall : Option (Nat × Nat)
  passAtExit : List Nat
  events : List Event
deriving Repr

/-- The all-zero interactive passphrase buffer (`char buf[256] = ""`). -/
def zeros256 : List Nat := List.replicate MAX_PASSPHRASE 0

/-- The length of the JSON area: be64(hdr_size) - sizeof(header), in u64
arithmetic (source line 578). -/
def recoverJlen (hdr : Luks2Header) : Nat := u64sub (bswap64 hdr.hdr_size) 4096

/-- Tail of luks2_recover_key from the passphrase determination on (source
lines 609-630): key-file bytes are used verbatim; otherwise the interactive
prompt fills the 256-byte buffer (NUL-terminated, length its strlen), whose
contents at exit are recorded because the function never clears it. -/
def recoverPass (P : Prims) (crypt : Crypt) (hdr : Luks2Header) (json : JVal) :
    Option (List Nat) → RecoverOut
  | some kb =>
    let a := recoverWithJson P crypt json kb
    ⟨a.ret, a.crypt, a.attempted, a.opened, a.masterCall,
      some (recoverJlen hdr, bswap64 hdr.hdr_size), zeros256, a.events⟩
  | Option.none =>
    match P.passwordGet with
    | Option.none =>
      ⟨.ret (.badArgument "Passphrase not supplied"), crypt, [], Option.none,
        Option.none, some (recoverJlen hdr, bswap64 hdr.hdr_size), zeros256, []⟩
    | some pw =>
      let ibuf := (pw.takeWhile (fun b => b ≠ 0)).take (MAX_PASSPHRASE - 1)
      let a := recoverWithJson P crypt json ibuf
      ⟨a.ret, a.crypt, a.attempted, a.opened, a.masterCall,
        some (recoverJlen hdr, bswap64 hdr.hdr_size),
        ibuf ++ List.replicate (MAX_PASSPHRASE - ibuf.length) 0, a.events⟩

/-- Tail of luks2_recover_key from the grub_json_parse result on (source
lines 602-607): the call is made with declared length be64(hdr_size) while
the buffer holds hdr_size - 4096 bytes; both lengths are recorded in
jsonCall. -/
def recoverParse (P : Prims) (crypt : Crypt) (hdr : Luks2Header)
    (keyfile : Option (List Nat)) : Except GrubErr JVal → RecoverOut
  | .error _ =>
    ⟨.ret (.badArgument "Invalid LUKS2 JSON header"), crypt, [], Option.none,
      Option.none, some (recoverJlen hdr, bswap64 hdr.hdr_size), zeros256, []⟩
  | .ok json => recoverPass P crypt hdr json keyfile

/-- The NUL-terminator check of luks2_recover_key (source lines 598-600):
when grub_memchr finds no NUL in the JSON region the function jumps to the
cleanup label with ret still GRUB_ERR_NONE — the attempt is abandoned with a
success status, before the JSON parser or any keyslot is touched. -/
def recoverNul (P : Prims) (crypt : Crypt) (hdr : Luks2Header)
    (keyfile : Option (List Nat)) (buf : List Nat) : Bool → RecoverOut
  | false => ⟨.ret .none, crypt, [], Option.none, Option.none, Option.none, zeros256, []⟩
  | true => recoverParse P crypt hdr keyfile (P.jsonParse buf (bswap64 hdr.hdr_size))

/-- The JSON-area read of luks2_recover_key (source lines 582-596): read
hdr_size - 4096 bytes at hdr_offset + 4096 into the zero-initialized buffer. -/
def recoverRead (P : Prims) (crypt : Crypt) (hdr : Luks2Header)
    (keyfile : Option (List Nat)) : Except GrubErr (List Nat) → RecoverOut
  | .error e => ⟨.ret e, crypt, [], Option.none, Option.none, Option.none, zeros256, []⟩
  | .ok raw =>
    let buf := (raw ++ List.replicate (recoverJlen hdr - raw.length) 0).take (recoverJlen hdr)
    recoverNul P crypt hdr keyfile buf (buf.contains 0)

/-- The JSON-buffer allocation of luks2_recover_key (source lines 578-580). -/
def recoverMalloc (P : Prims) (crypt : Crypt) (hdr : Luks2Header)
    (keyfile : Option (List Nat)) : Bool → RecoverOut
  | false => ⟨.ret .outOfMemory, crypt, [], Option.none, Option.none, Option.none, zeros256, []⟩
  | true =>
    recoverRead P crypt hdr keyfile
      (P.readBytes (u64add (bswap64 hdr.hdr_offset) 4096) (recoverJlen hdr))

/-- luks2_recover_key (source lines 556-730): read and select the binary
header, allocate hdr_size - 4096 bytes and read the JSON area into them,
abort silently if the area has no NUL byte, call grub_json_parse with
declared length hdr_size, obtain the passphrase (key file bytes or the
interactive prompt), and run the keyslot trials.  The body is decomposed
into the recover* continuations above, one per C statement group. -/
def luks2_recover_key (P : Prims) (crypt : Crypt) (keyfile : Option (List Nat)) : RecoverOut :=
  match luks2_read_header P with
  | .error e => ⟨.ret e, crypt, [], Option.none, Option.none, Option.none, zeros256, []⟩
  | .ok hdr => recoverMalloc P crypt hdr keyfile (P.malloc (recoverJlen hdr))

/-
  Concrete fixtures used by witnesses and counterexamples.
-/

/-- A valid primary header: decoded hdr_size 4098 (a 2-byte JSON area),
decoded seqid 7, hdr_offset 0.  Fields hold the raw (byte-swapped) values. -/
def fxHdrP : Luks2Header :=
  { magic := LUKS_MAGIC_1ST, version := 512, hdr_size := bswap64 4098,
    seqid := bswap64 7, hdr_offset := 0 }

/-- A valid secondary header with decoded seqid 7 (equal to the primary's). -/
def fxHdrS : Luks2Header :=
  { magic := LUKS_MAGIC_2ND, version := 512, hdr_size := bswap64 4098,
    seqid := bswap64 7, hdr_offset := 0 }

/-- A valid secondary header with decoded seqid 9 (larger than the primary's). -/
def fxHdrS9 : Luks2Header :=
  { magic := LUKS_MAGIC_2ND, version := 512, hdr_size := bswap64 4098,
    seqid := bswap64 9, hdr_offset := 0 }

/-- A key area object: raw, 4 bytes at offset 8192, aes-xts-plain64, 4-byte area key. -/
def fxArea : JVal :=
  .obj [("type", .str "raw"), ("offset", .num 8192), ("size", .num 4),
        ("encryption", .str "aes-xts-plain64"), ("key_size", .num 4)]

/-- A PBKDF2 kdf object. -/
def fxKdf : JVal :=
  .obj [("type", .str "pbkdf2"), ("salt", .str "c2FsdA"), ("hash", .str "sha256"),
        ("iterations", .num 1000)]

/-- A luks1 af object with a single stripe. -/
def fxAf : JVal :=
  .obj [("type", .str "luks1"), ("stripes", .num 1), ("hash", .str "sha256")]

/-- A complete, well-formed keyslot object (priority absent, so defaulted to 1). -/
def fxSlotGood : JVal :=
  .obj [("type", .str "luks2"), ("key_size", .num 4), ("area", fxArea),
        ("kdf", fxKdf), ("af", fxAf)]

/-- The same keyslot object with priority 0. -/
def fxSlotPrio0 : JVal :=
  .obj [("type", .str "luks2"), ("key_size", .num 4), ("priority", .num 0),
        ("area", fxArea), ("kdf", fxKdf), ("af", fxAf)]

/-- A digest object referencing keyslots 0 and 1 and segment 0, whose stored
digest decodes (under fxPrims.base64) to the value PBKDF2 produces — so
verification succeeds. -/
def fxDigestGood : JVal :=
  .obj [("type", .str "pbkdf2"), ("keyslots", .arr [.str "0", .str "1"]),
        ("segments", .arr [.str "0"]), ("salt", .str "ds"), ("digest", .str "dg"),
        ("hash", .str "sha256"), ("iterations", .num 1000)]

/-- The same digest object with a stored digest that does not match — so
verification fails. -/
def fxDigestBad : JVal :=
  .obj [("type", .str "pbkdf2"), ("keyslots", .arr [.str "0", .str "1"]),
        ("segments", .arr [.str "0"]), ("salt", .str "ds"), ("digest", .str "dgbad"),
        ("hash", .str "sha256"), ("iterations", .num 1000)]

/-- A crypt segment: dynamic size, sector_size 512, aes-xts-plain64. -/
def fxSegment : JVal :=
  .obj [("type", .str "crypt"), ("offset", .num 4096), ("size", .str "dynamic"),
        ("encryption", .str "aes-xts-plain64"), ("sector_size", .num 512)]

/-- Metadata with one keyslot whose trial decrypts but fails verification. -/
def fxJsonFail : JVal :=
  .obj [("keyslots", .obj [("0", fxSlotGood)]),
        ("digests", .obj [("0", fxDigestBad)]),
        ("segments", .obj [("0", fxSegment)])]

/-- Metadata with keyslot 0 at priority 0 and keyslot 1 verifying correctly. -/
def fxJsonTwo : JVal :=
  .obj [("keyslots", .obj [("0", fxSlotPrio0), ("1", fxSlotGood)]),
        ("digests", .obj [("0", fxDigestGood)]),
        ("segments", .obj [("0", fxSegment)])]

/-- fxJsonTwo with the priority-0 keyslot entry removed. -/
def fxJsonTwoErased : JVal :=
  .obj [("keyslots", .obj [("1", fxSlotGood)]),
        ("digests", .obj [("0", fxDigestGood)]),
        ("segments", .obj [("0", fxSegment)])]

/-- Concrete primitive oracles: reads serve the 2-byte JSON area at offset
4096 (bytes [123, 0]) and the 4-byte key area elsewhere (bytes 5); PBKDF2
returns 7-bytes, so a digest decoding to [7, 7] (string "dg") verifies and
any other digest fails; ciphers, setkey, malloc always succeed; decrypt is
the identity; AF-merge takes the first key_size bytes. -/
def fxPrims : Prims :=
  { readPrimary := .ok fxHdrP
    readSecondary := fun _ => .ok fxHdrS
    readBytes := fun off len => if off = 4096 then .ok [123, 0] else .ok (List.replicate len 5)
    jsonParse := fun _ _ => .ok fxJsonFail
    base64 := fun s => if s = "dg" then some [7, 7] else some [9, 9]
    mdOk := fun _ => true
    pbkdf2 := fun _ _ _ _ outlen => .ok (List.replicate outlen 7)
    setcipher := fun _ _ => .none
    setkey := fun _ _ => Option.none
    decrypt := fun b _ _ _ => .ok b
    afMerge := fun _ src bs _ => .ok (src.take bs)
    malloc := fun _ => true
    passwordGet := some [112, 119, 100]
    diskSize := 65536
    srcLogSectorSize := 9 }

/-- fxPrims parsing to the two-keyslot metadata. -/
def fxPrimsTwo : Prims := { fxPrims with jsonParse := fun _ _ => .ok fxJsonTwo }

/-- fxPrims whose JSON region read yields no NUL byte. -/
def fxPrimsNoNul : Prims :=
  { fxPrims with readBytes := fun off len =>
      if off = 4096 then .ok [123, 125] else .ok (List.replicate len 5) }

/-- A digest object whose keyslots array is {3, 5, 7} (all below 31). -/
def fxDigest357 : JVal :=
  .obj [("type", .str "pbkdf2"), ("keyslots", .arr [.num 3, .num 5, .num 7]),
        ("segments", .arr [.num 0]), ("salt", .str "ds"), ("digest", .str "dg"),
        ("hash", .str "sha256"), ("iterations", .num 1000)]

/-- The same digest object with keyslots {32, 1, 2}: element 32 makes the
int-typed shift undefined. -/
def fxDigest32 : JVal :=
  .obj [("type", .str "pbkdf2"), ("keyslots", .arr [.num 32, .num 1, .num 2]),
        ("segments", .arr [.num 0]), ("salt", .str "ds"), ("digest", .str "dg"),
        ("hash", .str "sha256"), ("iterations", .num 1000)]

/-- The keyslot record parsed from fxSlotGood. -/
def fxK : Keyslot := (luks2_parse_keyslot {} fxSlotGood).2

/-- A keyslot object with no kdf member: parsing fails only after key_size,
priority and the area fields have already been written into the out record. -/
def fxSlotNoKdf : JVal :=
  .obj [("type", .str "luks2"), ("key_size", .num 4), ("area", fxArea), ("af", fxAf)]

/-- A keyslot record with junk in every field, to exhibit prior-state
independence of successful parses. -/
def fxJunkKeyslot : Keyslot :=
  { key_size := 99, priority := 77, area_encryption := "junk", area_offset := 55,
    area_size := 44, area_key_size := 33, af_hash := "junk", af_stripes := 22,
    kdf_type := .pbkdf2, kdf_salt := "junk", kdf_u := .pbkdf2 "junk" 11 }

/-- The trial at index m aborts during resolution: luks2_get_keyslot returns a
nonzero error (never undefined behaviour), whatever the threaded records were;
the loop then continues with the next slot. -/
def slotResolveFails (json : JVal) (m : Nat) : Prop :=
  ∀ k d s, ∃ e, e ≠ GrubErr.none ∧ (luks2_get_keyslot k d s json m).1 = CRet.ret e

/-- The slot at index m resolves and its parsed priority is 0, whatever the
threaded records were. -/
def slotPriorityZero (json : JVal) (m : Nat) : Prop :=
  ∀ k d s, ∃ k' d' s', luks2_get_keyslot k d s json m = (.ret .none, k', d', s') ∧
    k'.priority = 0

/-- The slot at index m resolves with nonzero priority and a well-defined
sector size, but its trial fails: for every incoming crypto-disk state either
luks2_decrypt_key fails or the derived candidate fails digest verification. -/
def slotTrialFails (P : Prims) (json : JVal) (pass : List Nat) (m : Nat) : Prop :=
  ∀ k d s, ∃ k' d' s' lss, luks2_get_keyslot k d s json m = (.ret .none, k', d', s') ∧
    k'.priority ≠ 0 ∧ c_log2_u32 (toU32 s'.sector_size) = some lss ∧
    ∀ c, (luks2_decrypt_key P (configSegment P c s' lss) k' pass).ret ≠ GrubErr.none ∨
         luks2_verify_key P d' (luks2_decrypt_key P (configSegment P c s' lss) k' pass).key
           (toSizeT k'.key_size) ≠ GrubErr.none

/-- The trial loop passes over index m without opening it. -/
def slotSkips (P : Prims) (json : JVal) (pass : List Nat) (m : Nat) : Prop :=
  slotResolveFails json m ∨ slotPriorityZero json m ∨ slotTrialFails P json pass m

/-- The slot at index m opens: it resolves to keyslot kI and segment sI,
priority is nonzero, and for every incoming crypto-disk state the decryption
succeeds with candidate key keyI, which passes digest verification. -/
def slotSucceeds (P : Prims) (json : JVal) (pass : List Nat) (m : Nat)
    (kI : Keyslot) (sI : Segment) (keyI : List Nat) : Prop :=
  ∀ k d s, ∃ d' lss, luks2_get_keyslot k d s json m = (.ret .none, kI, d', sI) ∧
    kI.priority ≠ 0 ∧ c_log2_u32 (toU32 sI.sector_size) = some lss ∧
    ∀ c, (luks2_decrypt_key P (configSegment P c sI lss) kI pass).ret = GrubErr.none ∧
         (luks2_decrypt_key P (configSegment P c sI lss) kI pass).key = keyI ∧
         luks2_verify_key P d' keyI (toSizeT kI.key_size) = GrubErr.none

/-- The observable outcome of the trial loop for claim C7: the status, the
crypto-disk state and the winning (keyslot, segment, key) payload; the slot
index, the trial trace and the events are position-dependent and excluded. -/
def loopObs (r : CRet × LoopSt × Option Winner) :
    CRet × Crypt × Option (Keyslot × Segment × List Nat) :=
  (r.1, r.2.1.crypt, r.2.2.map (fun w => w.2))

/-- The digest record parsed from fxDigestBad. -/
def fxDB : Digest := (luks2_parse_digest {} fxDigestBad).2

/-- The digest record parsed from fxDigestGood. -/
def fxDG : Digest := (luks2_parse_digest {} fxDigestGood).2

/-- The segment record parsed from fxSegment. -/
def fxSG : Segment := (luks2_parse_segment {} fxSegment).2

/-- The keyslot record parsed from fxSlotPrio0. -/
def fxKP0 : Keyslot := (luks2_parse_keyslot {} fxSlotPrio0).2

/-
  Theorems.
-/

/-- C1: when the primary and the secondary header both carry a valid magic and
big-endian version 2, luks2_read_header returns the copy with the strictly
greater big-endian seqid and the primary on equality; and whenever the primary
fails the magic/version check, it fails with the primary BadSignature error no
matter what any secondary read would return (the quantification over `P` with
only the primary read fixed shows the secondary is never consulted). -/
theorem luks2_read_header_selection (P : Prims) (prim : Luks2Header)
    (hp : P.readPrimary = .ok prim) :
    (validPrimary prim →
      ∀ sec, P.readSecondary (bswap64 prim.hdr_size) = .ok sec → validSecondary sec →
        ((bswap64 prim.seqid < bswap64 sec.seqid → luks2_read_header P = .ok sec) ∧
         (bswap64 sec.seqid ≤ bswap64 prim.seqid → luks2_read_header P = .ok prim)))
    ∧ (¬ validPrimary prim →
        luks2_read_header P = .error (.badSignature "Bad primary signature")) := by
  constructor
  · intro hv sec hs hvs
    constructor
    · intro hlt
      simp [luks2_read_header, hp, hv, hs, hvs, hlt]
    · intro hle
      simp [luks2_read_header, hp, hv, hs, hvs, Nat.not_lt.mpr hle]
  · intro hnv
    simp [luks2_read_header, hp, hnv]

/-- Witness for C1: on a concrete device whose two headers are valid with
seqids 7 and 9, the secondary is returned; evaluated via the theorem. -/
theorem luks2_read_header_selection_witness :
    validPrimary fxHdrP ∧ validSecondary fxHdrS9 ∧
    bswap64 fxHdrP.seqid < bswap64 fxHdrS9.seqid ∧
    luks2_read_header { fxPrims with readSecondary := fun _ => .ok fxHdrS9 } = .ok fxHdrS9 := by
  refine ⟨by decide, by decide, by decide, ?_⟩
  exact ((luks2_read_header_selection
    { fxPrims with readSecondary := fun _ => .ok fxHdrS9 } fxHdrP rfl).1
    (by decide) fxHdrS9 rfl (by decide)).1 (by decide)

/-- C3 (code bug): luks2_parse_digest builds the 64-bit reference bitmaps with
the int-typed expression `(1 << bit)`, so for elements up to 30 the mask is
exact (here {3, 5, 7} parses to bits 3, 5, 7), but an element of 32 — legal
per the claim, which promises exact masks for all indices below 64 — runs into
C undefined behaviour instead of setting bit 32. -/
theorem luks2_parse_digest_bit32_undef :
    (luks2_parse_digest {} fxDigest357).1 = .ret .none ∧
    (luks2_parse_digest {} fxDigest357).2.keyslots = 2 ^ 3 + 2 ^ 5 + 2 ^ 7 ∧
    (luks2_parse_digest {} fxDigest357).2.segments = 2 ^ 0 ∧
    (luks2_parse_digest {} fxDigest32).1 = .undef := by
  decide

/-- The events of luks2_decrypt_key always take one of three shapes; any
decrypt call that appears carries start sector 0 and log sector size 9. -/
theorem decrypt_events_shape (P : Prims) (c : Crypt) (k : Keyslot) (pass : List Nat) :
    (luks2_decrypt_key P c k pass).events = [] ∨
    (luks2_decrypt_key P c k pass).events = [Event.freeSplitKey []] ∨
    ∃ x, (luks2_decrypt_key P c k pass).events =
      [Event.decryptCall k.area_size 0 LUKS_LOG_SECTOR_SIZE, Event.freeSplitKey x] := by
  unfold luks2_decrypt_key
  repeat' split
  all_goals (try (cases hm : P.mdOk k.kdf_u.pbHash <;> simp only [hm] <;> repeat' split))
  all_goals simp

/-- C4: every sector-decrypt call luks2_decrypt_key issues on the keyslot
area uses a start sector of 0 and the fixed 512-byte sector size
(log_sector_size = LUKS_LOG_SECTOR_SIZE = 9), for every keyslot, crypto-disk
state, passphrase and set of primitives — in particular independently of any
segment's sector_size, which luks2_decrypt_key never even receives. -/
theorem luks2_decrypt_key_area_sector_params (P : Prims) (c : Crypt) (k : Keyslot)
    (pass : List Nat) (len start lss : Nat)
    (h : Event.decryptCall len start lss ∈ (luks2_decrypt_key P c k pass).events) :
    start = 0 ∧ lss = LUKS_LOG_SECTOR_SIZE := by
  rcases decrypt_events_shape P c k pass with hs | hs | ⟨x, hs⟩ <;> rw [hs] at h <;> simp_all

/-- Witness for C4: the concrete run on fxPrims issues a decrypt call, and the
theorem evaluates its parameters. -/
theorem luks2_decrypt_key_area_sector_params_witness :
    Event.decryptCall 4 0 9 ∈ (luks2_decrypt_key fxPrims {} fxK [112, 119]).events ∧
    (0 = 0 ∧ 9 = LUKS_LOG_SECTOR_SIZE) := by
  refine ⟨by decide, ?_⟩
  exact luks2_decrypt_key_area_sector_params fxPrims {} fxK [112, 119] 4 0 9 (by decide)

theorem setArgon_full (u : KdfU) (t m c : Int) :
    setArgonCpus (setArgonMemory (setArgonTime u t) m) c = .argon2i t m c := by
  cases u <;> rfl

theorem setPbkdf2_full (u : KdfU) (h : String) (i : Int) :
    setPbkdf2Iter (setPbkdf2Hash u h) i = .pbkdf2 h i := by
  cases u <;> rfl

theorem kdf_u_indep (kdf : JVal) (kty : String) (a b : Keyslot) :
    (luks2_parse_keyslot_kdf_u a kdf kty).1 = (luks2_parse_keyslot_kdf_u b kdf kty).1 ∧
    ((luks2_parse_keyslot_kdf_u a kdf kty).1 = GrubErr.none →
      (luks2_parse_keyslot_kdf_u a kdf kty).2 =
        { a with kdf_type := (luks2_parse_keyslot_kdf_u b kdf kty).2.kdf_type,
                 kdf_u := (luks2_parse_keyslot_kdf_u b kdf kty).2.kdf_u }) := by
  unfold luks2_parse_keyslot_kdf_u
  repeat' split
  all_goals simp_all [setArgon_full, setPbkdf2_full]

theorem kdf_indep (keyslot kdf : JVal) (kty : String) (a b : Keyslot) :
    (luks2_parse_keyslot_kdf a keyslot kdf kty).1 = (luks2_parse_keyslot_kdf b keyslot kdf kty).1 ∧
    ((luks2_parse_keyslot_kdf a keyslot kdf kty).1 = GrubErr.none →
      (luks2_parse_keyslot_kdf a keyslot kdf kty).2 =
        { a with kdf_type := (luks2_parse_keyslot_kdf b keyslot kdf kty).2.kdf_type,
                 kdf_u := (luks2_parse_keyslot_kdf b keyslot kdf kty).2.kdf_u,
                 af_stripes := (luks2_parse_keyslot_kdf b keyslot kdf kty).2.af_stripes,
                 af_hash := (luks2_parse_keyslot_kdf b keyslot kdf kty).2.af_hash }) := by
  have hu := kdf_u_indep kdf kty a b
  rcases ha : luks2_parse_keyslot_kdf_u a kdf kty with ⟨e1, o1⟩
  rcases hb : luks2_parse_keyslot_kdf_u b kdf kty with ⟨e2, o2⟩
  rw [ha, hb] at hu
  simp only at hu
  obtain ⟨he, hsh⟩ := hu
  subst he
  unfold luks2_parse_keyslot_kdf
  rw [ha, hb]
  cases e1 with
  | none =>
    have ho : o1 = { a with kdf_type := o2.kdf_type, kdf_u := o2.kdf_u } := hsh rfl
    subst ho
    try dsimp only
    repeat' split
    all_goals simp_all
  | badArgument m => simp
  | badSignature m => simp
  | fileNotFound m => simp
  | accessDenied m => simp
  | ioErr m => simp
  | outOfMemory => simp
  | crypto c => simp

theorem kdf_final (keyslot kdf : JVal) (kty : String) (A B : Keyslot)
    (h1 : A.key_size = B.key_size) (h2 : A.priority = B.priority)
    (h3 : A.area_encryption = B.area_encryption) (h4 : A.area_offset = B.area_offset)
    (h5 : A.area_size = B.area_size) (h6 : A.area_key_size = B.area_key_size)
    (h7 : A.kdf_salt = B.kdf_salt) :
    (luks2_parse_keyslot_kdf A keyslot kdf kty).1 = (luks2_parse_keyslot_kdf B keyslot kdf kty).1 ∧
    ((luks2_parse_keyslot_kdf A keyslot kdf kty).1 = GrubErr.none →
      (luks2_parse_keyslot_kdf A keyslot kdf kty).2 = (luks2_parse_keyslot_kdf B keyslot kdf kty).2) := by
  have hA := kdf_indep keyslot kdf kty A B
  have hB := kdf_indep keyslot kdf kty B A
  refine ⟨hA.1, fun hs => ?_⟩
  have hBs := hB.2 (by rw [← hA.1]; exact hs)
  rw [hA.2 hs, hBs]
  simp [h1, h2, h3, h4, h5, h6, h7]

theorem parse_keyslot_indep (o : JVal) (a b : Keyslot) :
    (luks2_parse_keyslot a o).1 = (luks2_parse_keyslot b o).1 ∧
    ((luks2_parse_keyslot a o).1 = GrubErr.none →
      (luks2_parse_keyslot a o).2 = (luks2_parse_keyslot b o).2) := by
  unfold luks2_parse_keyslot
  repeat' split
  all_goals (try simp_all)
  all_goals (apply kdf_final <;> rfl)

theorem parse_segment_indep (o : JVal) (a b : Segment) :
    (luks2_parse_segment a o).1 = (luks2_parse_segment b o).1 ∧
    ((luks2_parse_segment a o).1 = GrubErr.none →
      (luks2_parse_segment a o).2 = (luks2_parse_segment b o).2) := by
  unfold luks2_parse_segment
  repeat' split
  all_goals simp_all

theorem parse_digest_indep (o : JVal) (a b : Digest) :
    (luks2_parse_digest a o).1 = (luks2_parse_digest b o).1 ∧
    ((luks2_parse_digest a o).1 = CRet.ret GrubErr.none →
      (luks2_parse_digest a o).2 = (luks2_parse_digest b o).2) := by
  unfold luks2_parse_digest
  repeat' split
  all_goals simp_all

theorem scanSegments_indep (segments : JVal) (dseg : Nat) (n i : Nat) (a b : Segment) :
    (scanSegments segments dseg a i n).1 = (scanSegments segments dseg b i n).1 ∧
    (scanSegments segments dseg a i n).2.2 = (scanSegments segments dseg b i n).2.2 ∧
    ((scanSegments segments dseg a i n).2.2 = true →
      (scanSegments segments dseg a i n).2.1 = (scanSegments segments dseg b i n).2.1) := by
  cases n with
  | zero => simp [scanSegments]
  | succ n =>
    rcases hc : grub_json_getchild segments i with _ | sg
    · simp [scanSegments, hc]
    rcases hk : grub_json_getuint64D sg with _ | skey
    · simp [scanSegments, hc, hk]
    rcases hv : grub_json_getchild sg 0 with _ | sval
    · simp [scanSegments, hc, hk, hv]
    have hseg := parse_segment_indep sval a b
    rcases hpa : luks2_parse_segment a sval with ⟨e1, s1⟩
    rcases hpb : luks2_parse_segment b sval with ⟨e2, s2⟩
    rw [hpa, hpb] at hseg
    simp only at hseg
    obtain ⟨he, hsv⟩ := hseg
    subst he
    simp only [scanSegments, hc, hk, hv, hpa, hpb]
    cases e1 with
    | none =>
      have hss : s1 = s2 := hsv rfl
      subst hss
      dsimp only
      rcases hm : c_shl1 skey with _ | m
      · simp [hm]
      · simp only [hm]
        by_cases hz : dseg &&& m = 0
        · simp only [if_pos hz]
          exact ⟨trivial, trivial, fun _ => trivial⟩
        · simp [if_neg hz]
    | badArgument m => simp
    | badSignature m => simp
    | fileNotFound m => simp
    | accessDenied m => simp
    | ioErr m => simp
    | outOfMemory => simp
    | crypto c => simp

theorem scanDigests_indep (digests : JVal) (kk : Nat) (n i : Nat) (a b : Digest) :
    (scanDigests digests kk a i n).1 = (scanDigests digests kk b i n).1 ∧
    (scanDigests digests kk a i n).2.2 = (scanDigests digests kk b i n).2.2 ∧
    ((scanDigests digests kk a i n).2.2 = true →
      (scanDigests digests kk a i n).2.1 = (scanDigests digests kk b i n).2.1) := by
  cases n with
  | zero => simp [scanDigests]
  | succ n =>
    rcases hc : grub_json_getchild digests i with _ | dg
    · simp [scanDigests, hc]
    rcases hk : grub_json_getuint64D dg with _ | dkey
    · simp [scanDigests, hc, hk]
    rcases hv : grub_json_getchild dg 0 with _ | dval
    · simp [scanDigests, hc, hk, hv]
    have hdig := parse_digest_indep dval a b
    rcases hpa : luks2_parse_digest a dval with ⟨e1, d1⟩
    rcases hpb : luks2_parse_digest b dval with ⟨e2, d2⟩
    rw [hpa, hpb] at hdig
    simp only at hdig
    obtain ⟨he, hdv⟩ := hdig
    subst he
    simp only [scanDigests, hc, hk, hv, hpa, hpb]
    cases e1 with
    | undef => simp
    | ret e =>
      cases e with
      | none =>
        have hdd : d1 = d2 := hdv rfl
        subst hdd
        try dsimp only
        rcases hm : c_shl1 kk with _ | m
        · simp [hm]
        · simp only [hm]
          by_cases hz : d1.keyslots &&& m = 0
          · simp only [if_pos hz]
            exact ⟨trivial, trivial, fun _ => trivial⟩
          · simp [if_neg hz]
      | badArgument m => simp
      | badSignature m => simp
      | fileNotFound m => simp
      | accessDenied m => simp
      | ioErr m => simp
      | outOfMemory => simp
      | crypto c => simp

theorem gkFromChild_indep (root child : JVal) (k1 k2 : Keyslot) (d1 d2 : Digest) (s1 s2 : Segment) :
    (gkFromChild k1 d1 s1 root child).1 = (gkFromChild k2 d2 s2 root child).1 ∧
    ((gkFromChild k1 d1 s1 root child).1 = CRet.ret GrubErr.none →
      (gkFromChild k1 d1 s1 root child).2 = (gkFromChild k2 d2 s2 root child).2) := by
  unfold gkFromChild
  rcases hky : grub_json_getuint64D child with _ | kk
  · simp [hky]
  rcases hkv : grub_json_getchild child 0 with _ | kval
  · simp [hky, hkv]
  have hks := parse_keyslot_indep kval k1 k2
  rcases hpa : luks2_parse_keyslot k1 kval with ⟨e1, k1'⟩
  rcases hpb : luks2_parse_keyslot k2 kval with ⟨e2, k2'⟩
  rw [hpa, hpb] at hks
  simp only at hks
  obtain ⟨he, hkv2⟩ := hks
  subst he
  simp only [hky, hkv, hpa, hpb]
  cases e1 with
  | badArgument m => simp
  | badSignature m => simp
  | fileNotFound m => simp
  | accessDenied m => simp
  | ioErr m => simp
  | outOfMemory => simp
  | crypto c => simp
  | none =>
    have hkk : k1' = k2' := hkv2 rfl
    subst hkk
    try dsimp only
    rcases hdg : grub_json_getvalue root "digests" with _ | digests
    · simp [hdg]
    rcases hdsz : grub_json_getsize digests with _ | dsize
    · simp [hdg, hdsz]
    have hsc := scanDigests_indep digests kk dsize 0 d1 d2
    rcases hsa : scanDigests digests kk d1 0 dsize with ⟨r1, d1', f1⟩
    rcases hsb : scanDigests digests kk d2 0 dsize with ⟨r2, d2', f2⟩
    rw [hsa, hsb] at hsc
    simp only at hsc
    obtain ⟨hr, hf, hdv⟩ := hsc
    subst hr
    subst hf
    simp only [hdg, hdsz, hsa, hsb]
    cases r1 with
    | undef => simp
    | ret e =>
      cases f1 with
      | false => cases e <;> simp
      | true =>
        cases e <;> try simp
        case none =>
        have hdd : d1' = d2' := hdv rfl
        subst hdd
        try dsimp only
        rcases hsg : grub_json_getvalue root "segments" with _ | segments
        · simp [hsg]
        rcases hssz : grub_json_getsize segments with _ | ssize
        · simp [hsg, hssz]
        have hsc2 := scanSegments_indep segments d1'.segments ssize 0 s1 s2
        rcases hta : scanSegments segments d1'.segments s1 0 ssize with ⟨t1, s1', g1⟩
        rcases htb : scanSegments segments d1'.segments s2 0 ssize with ⟨t2, s2', g2⟩
        rw [hta, htb] at hsc2
        simp only at hsc2
        obtain ⟨ht, hg, hsv⟩ := hsc2
        subst ht
        subst hg
        simp only [hsg, hssz, hta, htb]
        cases t1 with
        | undef => simp
        | ret e2 =>
          cases g1 with
          | false => cases e2 <;> simp
          | true =>
            cases e2 <;> try simp
            case none =>
            have hss : s1' = s2' := hsv rfl
            subst hss
            simp

theorem luks2_get_keyslot_indep (root : JVal) (idx : Nat)
    (k1 k2 : Keyslot) (d1 d2 : Digest) (s1 s2 : Segment) :
    (luks2_get_keyslot k1 d1 s1 root idx).1 = (luks2_get_keyslot k2 d2 s2 root idx).1 ∧
    ((luks2_get_keyslot k1 d1 s1 root idx).1 = CRet.ret GrubErr.none →
      (luks2_get_keyslot k1 d1 s1 root idx).2 = (luks2_get_keyslot k2 d2 s2 root idx).2) := by
  unfold luks2_get_keyslot
  rcases hv : grub_json_getvalue root "keyslots" with _ | keyslots
  · simp [hv]
  rcases hc : grub_json_getchild keyslots idx with _ | child
  · simp [hv, hc]
  simp only [hv, hc]
  exact gkFromChild_indep root child k1 k2 d1 d2 s1 s2

theorem kdf_u_status (kdf : JVal) (kty : String) (a : Keyslot) :
    (luks2_parse_keyslot_kdf_u a kdf kty).1 = GrubErr.none ∨
    (luks2_parse_keyslot_kdf_u a kdf kty).1.isBadArgument = true := by
  unfold luks2_parse_keyslot_kdf_u
  repeat' split
  all_goals simp [GrubErr.isBadArgument]

theorem kdf_status (keyslot kdf : JVal) (kty : String) (a : Keyslot) :
    (luks2_parse_keyslot_kdf a keyslot kdf kty).1 = GrubErr.none ∨
    (luks2_parse_keyslot_kdf a keyslot kdf kty).1.isBadArgument = true := by
  have hu := kdf_u_status kdf kty a
  rcases ha : luks2_parse_keyslot_kdf_u a kdf kty with ⟨e1, o1⟩
  rw [ha] at hu
  simp only at hu
  unfold luks2_parse_keyslot_kdf
  rw [ha]
  cases e1 with
  | none =>
    dsimp only
    repeat' split
    all_goals simp [GrubErr.isBadArgument]
  | badArgument m => simp [GrubErr.isBadArgument]
  | badSignature m => simp_all [GrubErr.isBadArgument]
  | fileNotFound m => simp_all [GrubErr.isBadArgument]
  | accessDenied m => simp_all [GrubErr.isBadArgument]
  | ioErr m => simp_all [GrubErr.isBadArgument]
  | outOfMemory => simp_all [GrubErr.isBadArgument]
  | crypto c => simp_all [GrubErr.isBadArgument]

theorem parse_keyslot_status (o : JVal) (a : Keyslot) :
    (luks2_parse_keyslot a o).1 = GrubErr.none ∨
    (luks2_parse_keyslot a o).1.isBadArgument = true := by
  unfold luks2_parse_keyslot
  repeat' split
  all_goals (try simp [GrubErr.isBadArgument])
  all_goals (apply kdf_status)

theorem parse_segment_status (o : JVal) (a : Segment) :
    (luks2_parse_segment a o).1 = GrubErr.none ∨
    (luks2_parse_segment a o).1.isBadArgument = true := by
  unfold luks2_parse_segment
  repeat' split
  all_goals simp [GrubErr.isBadArgument]

theorem parse_digest_status (o : JVal) (a : Digest) :
    ∀ e, (luks2_parse_digest a o).1 = CRet.ret e →
      e = GrubErr.none ∨ e.isBadArgument = true := by
  unfold luks2_parse_digest
  repeat' split
  all_goals (intro e he; simp only [] at he; cases he <;> simp [GrubErr.isBadArgument])

/-- C8 counterexample: parsing a keyslot object that lacks a kdf member is
rejected with BadArgument, yet the output record is no longer the record the
caller passed in — type, key_size, priority and the area fields had already
been stored by the time the check failed, so rejection does not leave the
output unchanged, contradicting the claim as stated. -/
theorem luks2_parse_keyslot_partial_write :
    (luks2_parse_keyslot {} fxSlotNoKdf).1.isBadArgument = true ∧
    (luks2_parse_keyslot {} fxSlotNoKdf).2 ≠ ({} : Keyslot) := by
  decide

/-- C8 (amended): parsing one structure is atomic in status and in the
successful result: the status depends only on the JSON object (never on the
prior contents of the output record), every rejection is BadArgument, and a
successful parse fully populates the record with values determined by the
JSON alone; but on rejection the record may retain fields written before the
failing check. -/
theorem luks2_parse_atomic_amended (o : JVal) (a b : Keyslot) (a2 b2 : Segment)
    (a3 b3 : Digest) :
    ((luks2_parse_keyslot a o).1 = (luks2_parse_keyslot b o).1) ∧
    ((luks2_parse_keyslot a o).1 = GrubErr.none →
      (luks2_parse_keyslot a o).2 = (luks2_parse_keyslot b o).2) ∧
    ((luks2_parse_keyslot a o).1 = GrubErr.none ∨
      (luks2_parse_keyslot a o).1.isBadArgument = true) ∧
    ((luks2_parse_segment a2 o).1 = (luks2_parse_segment b2 o).1) ∧
    ((luks2_parse_segment a2 o).1 = GrubErr.none →
      (luks2_parse_segment a2 o).2 = (luks2_parse_segment b2 o).2) ∧
    ((luks2_parse_segment a2 o).1 = GrubErr.none ∨
      (luks2_parse_segment a2 o).1.isBadArgument = true) ∧
    ((luks2_parse_digest a3 o).1 = (luks2_parse_digest b3 o).1) ∧
    ((luks2_parse_digest a3 o).1 = CRet.ret GrubErr.none →
      (luks2_parse_digest a3 o).2 = (luks2_parse_digest b3 o).2) ∧
    (∀ e, (luks2_parse_digest a3 o).1 = CRet.ret e →
      e = GrubErr.none ∨ e.isBadArgument = true) := by
  obtain ⟨hk1, hk2⟩ := parse_keyslot_indep o a b
  obtain ⟨hs1, hs2⟩ := parse_segment_indep o a2 b2
  obtain ⟨hd1, hd2⟩ := parse_digest_indep o a3 b3
  exact ⟨hk1, hk2, parse_keyslot_status o a, hs1, hs2, parse_segment_status o a2,
         hd1, hd2, parse_digest_status o a3⟩

/-- Witness for the amended C8: a successful keyslot parse gives the same
fully-populated record whether the out record started empty or full of junk,
and the kdf-less object is rejected with BadArgument. -/
theorem luks2_parse_atomic_amended_witness :
    (luks2_parse_keyslot fxJunkKeyslot fxSlotGood).1 = GrubErr.none ∧
    (luks2_parse_keyslot fxJunkKeyslot fxSlotGood).2 = (luks2_parse_keyslot {} fxSlotGood).2 ∧
    ((luks2_parse_keyslot {} fxSlotNoKdf).1 = GrubErr.none ∨
      (luks2_parse_keyslot {} fxSlotNoKdf).1.isBadArgument = true) := by
  refine ⟨by decide, ?_, ?_⟩
  · exact (luks2_parse_atomic_amended fxSlotGood fxJunkKeyslot {} {} {} {} {}).2.1 (by decide)
  · exact (luks2_parse_atomic_amended fxSlotNoKdf {} {} {} {} {} {}).2.2.1

theorem trialLoop_succ_shape (P : Prims) (json : JVal) (pass : List Nat)
    (st : LoopSt) (j n : Nat) :
    (∃ st', trialLoop P json pass st j (n + 1) = trialLoop P json pass st' (j + 1) n ∧
            (st'.attempted = st.attempted ∨ st'.attempted = st.attempted ++ [j])) ∨
    ((trialLoop P json pass st j (n + 1)).2.1.attempted = st.attempted ∨
     (trialLoop P json pass st j (n + 1)).2.1.attempted = st.attempted ++ [j]) := by
  rcases hgk : luks2_get_keyslot st.k st.d st.s json j with ⟨r, k1, d1, s1⟩
  simp only [trialLoop, hgk]
  cases r with
  | undef => simp
  | ret e =>
    cases e
    case none =>
      try dsimp only
      by_cases hp : k1.priority = 0
      · simp only [if_pos hp]
        exact Or.inl ⟨_, rfl, Or.inl rfl⟩
      · simp only [if_neg hp]
        rcases hl : c_log2_u32 (toU32 s1.sector_size) with _ | lss
        · simp [hl]
        · simp only [hl]
          try dsimp only
          cases hd : (luks2_decrypt_key P (configSegment P st.crypt s1 lss) k1 pass).ret
          · simp only [hd]
            cases hv : luks2_verify_key P d1
              (luks2_decrypt_key P (configSegment P st.crypt s1 lss) k1 pass).key
              (toSizeT k1.key_size)
            · simp only [hv]
              right
              right
              simp
            all_goals (simp only [hv]; exact Or.inl ⟨_, rfl, Or.inr rfl⟩)
          all_goals (simp only [hd]; exact Or.inl ⟨_, rfl, Or.inr rfl⟩)
    all_goals (try dsimp only
               exact Or.inl ⟨_, rfl, Or.inl rfl⟩)

theorem trialLoop_priority_zero_step (P : Prims) (json : JVal) (pass : List Nat)
    (st : LoopSt) (p n : Nat) (hp : slotPriorityZero json p) :
    ∃ st', trialLoop P json pass st p (n + 1) = trialLoop P json pass st' (p + 1) n ∧
           st'.attempted = st.attempted ∧ st'.crypt = st.crypt ∧ st'.events = st.events := by
  obtain ⟨k', d', s', hgk, hpr⟩ := hp st.k st.d st.s
  simp only [trialLoop, hgk]
  try dsimp only
  simp only [if_pos hpr]
  exact ⟨_, rfl, rfl, rfl, rfl⟩

theorem trialLoop_attempted_shape (P : Prims) (json : JVal) (pass : List Nat) :
    ∀ (n j : Nat) (st : LoopSt), ∃ l,
      (trialLoop P json pass st j n).2.1.attempted = st.attempted ++ l ∧
      (∀ x ∈ l, j ≤ x ∧ x < j + n) ∧ List.Pairwise (fun x y => x < y) l := by
  intro n
  induction n with
  | zero =>
    intro j st
    exact ⟨[], by simp [trialLoop], by simp, by simp⟩
  | succ n ih =>
    intro j st
    rcases trialLoop_succ_shape P json pass st j n with ⟨st', hstep, hatt⟩ | hhalt
    · obtain ⟨l, hl, hb, hs⟩ := ih (j + 1) st'
      rw [hstep, hl]
      rcases hatt with h | h <;> rw [h]
      · exact ⟨l, by simp, fun x hx => by
          obtain ⟨h1, h2⟩ := hb x hx
          omega, hs⟩
      · refine ⟨j :: l, by simp, fun x hx => ?_, ?_⟩
        · rcases List.mem_cons.mp hx with h | h
          · omega
          · obtain ⟨h1, h2⟩ := hb x h
            omega
        · refine List.pairwise_cons.mpr ⟨fun x hx => ?_, hs⟩
          obtain ⟨h1, h2⟩ := hb x hx
          omega
    · rcases hhalt with h | h
      · exact ⟨[], by simp [h], by simp, by simp⟩
      · refine ⟨[j], by simp [h], fun x hx => ?_, by simp⟩
        simp only [List.mem_singleton] at hx
        omega

theorem trialLoop_priority_zero_not_attempted (P : Prims) (json : JVal) (pass : List Nat)
    (p : Nat) (hp : slotPriorityZero json p) :
    ∀ (n j : Nat) (st : LoopSt), p ∉ st.attempted →
      p ∉ (trialLoop P json pass st j n).2.1.attempted := by
  intro n
  induction n with
  | zero =>
    intro j st h
    simpa [trialLoop] using h
  | succ n ih =>
    intro j st h
    by_cases hj : j = p
    · subst hj
      obtain ⟨st', hstep, hatt, _, _⟩ := trialLoop_priority_zero_step P json pass st j n hp
      rw [hstep]
      exact ih (j + 1) st' (by rw [hatt]; exact h)
    · rcases trialLoop_succ_shape P json pass st j n with ⟨st', hstep, hatt⟩ | hhalt
      · rw [hstep]
        refine ih (j + 1) st' ?_
        rcases hatt with ha | ha <;> rw [ha]
        · exact h
        · simp only [List.mem_append, List.mem_singleton]
          rintro (hc | hc)
          · exact h hc
          · exact hj hc.symm
      · rcases hhalt with ha | ha <;> rw [ha]
        · exact h
        · simp only [List.mem_append, List.mem_singleton]
          rintro (hc | hc)
          · exact h hc
          · exact hj hc.symm

theorem trialLoop_all_skip (P : Prims) (json : JVal) (pass : List Nat) :
    ∀ (n j : Nat) (st : LoopSt),
      (∀ m, j ≤ m → m < j + n → slotSkips P json pass m) →
      ∃ st', trialLoop P json pass st j n = (.ret .none, st', Option.none) := by
  intro n
  induction n with
  | zero =>
    intro j st _
    exact ⟨st, by simp [trialLoop]⟩
  | succ n ih =>
    intro j st hsk
    rcases hsk j (Nat.le_refl j) (by omega) with hrf | hpz | htf
    · obtain ⟨e, hne, h1⟩ := hrf st.k st.d st.s
      rcases hgk : luks2_get_keyslot st.k st.d st.s json j with ⟨r, k1, d1, s1⟩
      rw [hgk] at h1
      simp only at h1
      subst h1
      simp only [trialLoop, hgk]
      cases e
      case none => exact absurd rfl hne
      all_goals exact ih (j + 1) _ (fun m h1 h2 => hsk m (by omega) (by omega))
    · obtain ⟨st', hstep, _, _, _⟩ := trialLoop_priority_zero_step P json pass st j n hpz
      rw [hstep]
      exact ih (j + 1) st' (fun m h1 h2 => hsk m (by omega) (by omega))
    · obtain ⟨k', d', s', lss, hgk, hpr, hlog, hdec⟩ := htf st.k st.d st.s
      simp only [trialLoop, hgk]
      try dsimp only
      simp only [if_neg hpr, hlog]
      try dsimp only
      rcases hdec st.crypt with hne | hvne
      · cases hd : (luks2_decrypt_key P (configSegment P st.crypt s' lss) k' pass).ret
        · exact absurd hd hne
        all_goals (try simp only [hd]
                   try dsimp only
                   exact ih (j + 1) _ (fun m h1 h2 => hsk m (by omega) (by omega)))
      · cases hd : (luks2_decrypt_key P (configSegment P st.crypt s' lss) k' pass).ret
        · simp only [hd]
          cases hv : luks2_verify_key P d'
            (luks2_decrypt_key P (configSegment P st.crypt s' lss) k' pass).key
            (toSizeT k'.key_size)
          · exact absurd hv hvne
          all_goals (try simp only [hv]
                     try dsimp only
                     exact ih (j + 1) _ (fun m h1 h2 => hsk m (by omega) (by omega)))
        all_goals (try simp only [hd]
                   try dsimp only
                   exact ih (j + 1) _ (fun m h1 h2 => hsk m (by omega) (by omega)))

theorem trialLoop_first_success (P : Prims) (json : JVal) (pass : List Nat)
    (i : Nat) (kI : Keyslot) (sI : Segment) (keyI : List Nat)
    (hsucc : slotSucceeds P json pass i kI sI keyI) :
    ∀ (n j : Nat) (st : LoopSt), j ≤ i → i < j + n →
      (∀ m, j ≤ m → m < i → slotSkips P json pass m) →
      ∃ st' : LoopSt,
        trialLoop P json pass st j n = (.ret .none, st', some (i, kI, sI, keyI)) ∧
        ∃ l, st'.attempted = st.attempted ++ l ∧
          (∀ x ∈ l, j ≤ x ∧ x ≤ i) ∧ List.Pairwise (fun x y => x < y) l ∧ i ∈ l := by
  intro n
  induction n with
  | zero =>
    intro j st h1 h2 _
    omega
  | succ n ih =>
    intro j st hji hin hsk
    by_cases hj : j = i
    · subst hj
      obtain ⟨d', lss, hgk, hpr, hlog, hdec⟩ := hsucc st.k st.d st.s
      simp only [trialLoop, hgk]
      try dsimp only
      simp only [if_neg hpr, hlog]
      try dsimp only
      obtain ⟨hr, hk, hv⟩ := hdec st.crypt
      simp only [hr]
      try dsimp only
      rw [hk]
      simp only [hv]
      refine ⟨_, rfl, [j], rfl, ?_, ?_, ?_⟩
      · intro x hx
        simp only [List.mem_singleton] at hx
        omega
      · simp
      · simp
    · have hji' : j < i := by omega
      rcases hsk j (Nat.le_refl j) hji' with hrf | hpz | htf
      · obtain ⟨e, hne, h1⟩ := hrf st.k st.d st.s
        rcases hgk : luks2_get_keyslot st.k st.d st.s json j with ⟨r, k1, d1, s1⟩
        rw [hgk] at h1
        simp only at h1
        subst h1
        simp only [trialLoop, hgk]
        cases e
        · exact absurd rfl hne
        all_goals
          (try dsimp only
           obtain ⟨st', hloop, l, hl, hb, hpw, hil⟩ :=
             ih (j + 1) _ (by omega) (by omega) (fun m hm1 hm2 => hsk m (by omega) hm2)
           refine ⟨st', hloop, l, hl, fun x hx => ?_, hpw, hil⟩
           obtain ⟨hx1, hx2⟩ := hb x hx
           omega)
      · obtain ⟨st', hstep, hatt, _, _⟩ := trialLoop_priority_zero_step P json pass st j n hpz
        rw [hstep]
        obtain ⟨st2, hloop, l, hl, hb, hpw, hil⟩ :=
          ih (j + 1) st' (by omega) (by omega) (fun m hm1 hm2 => hsk m (by omega) hm2)
        rw [hatt] at hl
        refine ⟨st2, hloop, l, hl, fun x hx => ?_, hpw, hil⟩
        obtain ⟨hx1, hx2⟩ := hb x hx
        omega
      · obtain ⟨k', d', s', lss, hgk, hpr, hlog, hdec⟩ := htf st.k st.d st.s
        simp only [trialLoop, hgk]
        try dsimp only
        simp only [if_neg hpr, hlog]
        try dsimp only
        rcases hdec st.crypt with hne | hvne
        · cases hd : (luks2_decrypt_key P (configSegment P st.crypt s' lss) k' pass).ret
          · exact absurd hd hne
          all_goals
            (try simp only [hd]
             try dsimp only
             obtain ⟨st', hloop, l, hl, hb, hpw, hil⟩ :=
               ih (j + 1) _ (by omega) (by omega) (fun m hm1 hm2 => hsk m (by omega) hm2)
             refine ⟨st', hloop, j :: l, ?_, fun x hx => ?_, ?_, List.mem_cons_of_mem j hil⟩
             · rw [hl]
               simp
             · rcases List.mem_cons.mp hx with hc | hc
               · omega
               · obtain ⟨hx1, hx2⟩ := hb x hc
                 omega
             · refine List.pairwise_cons.mpr ⟨fun x hx => ?_, hpw⟩
               obtain ⟨hx1, hx2⟩ := hb x hx
               omega)
        · cases hd : (luks2_decrypt_key P (configSegment P st.crypt s' lss) k' pass).ret
          · simp only [hd]
            cases hv : luks2_verify_key P d'
              (luks2_decrypt_key P (configSegment P st.crypt s' lss) k' pass).key
              (toSizeT k'.key_size)
            · exact absurd hv hvne
            all_goals
              (try simp only [hv]
               try dsimp only
               obtain ⟨st', hloop, l, hl, hb, hpw, hil⟩ :=
                 ih (j + 1) _ (by omega) (by omega) (fun m hm1 hm2 => hsk m (by omega) hm2)
               refine ⟨st', hloop, j :: l, ?_, fun x hx => ?_, ?_, List.mem_cons_of_mem j hil⟩
               · rw [hl]
                 simp
               · rcases List.mem_cons.mp hx with hc | hc
                 · omega
                 · obtain ⟨hx1, hx2⟩ := hb x hc
                   omega
               · refine List.pairwise_cons.mpr ⟨fun x hx => ?_, hpw⟩
                 obtain ⟨hx1, hx2⟩ := hb x hx
                 omega)
          all_goals
            (try simp only [hd]
             try dsimp only
             obtain ⟨st', hloop, l, hl, hb, hpw, hil⟩ :=
               ih (j + 1) _ (by omega) (by omega) (fun m hm1 hm2 => hsk m (by omega) hm2)
             refine ⟨st', hloop, j :: l, ?_, fun x hx => ?_, ?_, List.mem_cons_of_mem j hil⟩
             · rw [hl]
               simp
             · rcases List.mem_cons.mp hx with hc | hc
               · omega
               · obtain ⟨hx1, hx2⟩ := hb x hc
                 omega
             · refine List.pairwise_cons.mpr ⟨fun x hx => ?_, hpw⟩
               obtain ⟨hx1, hx2⟩ := hb x hx
               omega)

theorem afterLoop_none (P : Prims) (e : GrubErr) (st : LoopSt) :
    afterLoop P (.ret e, st, Option.none) =
      ⟨.ret (.accessDenied "Invalid passphrase"), st.crypt, st.attempted,
        Option.none, Option.none, st.events⟩ := by
  rfl

theorem afterLoop_success (P : Prims) (e : GrubErr) (st : LoopSt) (i : Nat)
    (k : Keyslot) (s : Segment) (key : List Nat) :
    (afterLoop P (.ret e, st, some (i, k, s, key))).opened = some i ∧
    (afterLoop P (.ret e, st, some (i, k, s, key))).attempted = st.attempted ∧
    (∀ b l, (afterLoop P (.ret e, st, some (i, k, s, key))).masterCall = some (b, l) →
      b = key ∧ l = toSizeT k.key_size) := by
  unfold afterLoop
  try dsimp only
  by_cases hc : toSizeT k.key_size = 0
  · simp [hc]
  · simp only [if_neg hc]
    rcases hs : splitDash (trunc32 s.encryption) with _ | ⟨cn, cm⟩
    · simp
    · try dsimp only
      cases he : P.setcipher cn cm
      · try dsimp only
        cases hk : P.setkey key (toSizeT k.key_size)
        all_goals simp
      all_goals simp

theorem recoverWithJson_eq (P : Prims) (crypt : Crypt) (json : JVal) (pass : List Nat)
    (ks : JVal) (hks : grub_json_getvalue json "keyslots" = some ks)
    (sz : Nat) (hsz : grub_json_getsize ks = some sz) :
    recoverWithJson P crypt json pass =
      afterLoop P (trialLoop P json pass { crypt := crypt } 0 sz) := by
  unfold recoverWithJson
  rw [hks]
  try dsimp only
  rw [hsz]

theorem recover_key_reaches_loop (P : Prims) (c : Crypt) (pass : List Nat)
    (hdr : Luks2Header) (hhdr : luks2_read_header P = .ok hdr)
    (hmal : P.malloc (recoverJlen hdr) = true)
    (raw : List Nat)
    (hrd : P.readBytes (u64add (bswap64 hdr.hdr_offset) 4096) (recoverJlen hdr) = .ok raw)
    (hnul : ((raw ++ List.replicate (recoverJlen hdr - raw.length) 0).take
              (recoverJlen hdr)).contains 0 = true)
    (json : JVal)
    (hjson : P.jsonParse
      ((raw ++ List.replicate (recoverJlen hdr - raw.length) 0).take (recoverJlen hdr))
      (bswap64 hdr.hdr_size) = .ok json) :
    luks2_recover_key P c (some pass) =
      ⟨(recoverWithJson P c json pass).ret, (recoverWithJson P c json pass).crypt,
        (recoverWithJson P c json pass).attempted, (recoverWithJson P c json pass).opened,
        (recoverWithJson P c json pass).masterCall,
        some (recoverJlen hdr, bswap64 hdr.hdr_size), zeros256,
        (recoverWithJson P c json pass).events⟩ := by
  unfold luks2_recover_key
  rw [hhdr]
  try dsimp only
  rw [hmal]
  simp only [recoverMalloc]
  rw [hrd]
  simp only [recoverRead]
  try dsimp only
  rw [hnul]
  simp only [recoverNul]
  rw [hjson]
  simp only [recoverParse, recoverPass]

theorem bswap64_lt (x : Nat) : bswap64 x < U64 := by
  have h0 : byteAt x 0 < 256 := Nat.mod_lt _ (by norm_num)
  have h1 : byteAt x 1 < 256 := Nat.mod_lt _ (by norm_num)
  have h2 : byteAt x 2 < 256 := Nat.mod_lt _ (by norm_num)
  have h3 : byteAt x 3 < 256 := Nat.mod_lt _ (by norm_num)
  have h4 : byteAt x 4 < 256 := Nat.mod_lt _ (by norm_num)
  have h5 : byteAt x 5 < 256 := Nat.mod_lt _ (by norm_num)
  have h6 : byteAt x 6 < 256 := Nat.mod_lt _ (by norm_num)
  have h7 : byteAt x 7 < 256 := Nat.mod_lt _ (by norm_num)
  unfold bswap64 U64
  omega

theorem gk_of_closed (json : JVal) (m : Nat) (k0 : Keyslot) (d0 : Digest) (s0 : Segment)
    (kv : Keyslot) (dv : Digest) (sv : Segment)
    (h : luks2_get_keyslot k0 d0 s0 json m = (.ret .none, kv, dv, sv)) :
    ∀ k d s, luks2_get_keyslot k d s json m = (.ret .none, kv, dv, sv) := by
  intro k d s
  have hind := luks2_get_keyslot_indep json m k k0 d d0 s s0
  rcases hgk : luks2_get_keyslot k d s json m with ⟨r, k', d', s'⟩
  rw [hgk, h] at hind
  simp only at hind
  obtain ⟨hr, hv⟩ := hind
  subst hr
  have hv2 := hv rfl
  simp only [Prod.mk.injEq] at hv2
  obtain ⟨ha, hb, hc⟩ := hv2
  subst ha
  subst hb
  subst hc
  rfl

/-- C2: during one unlock attempt luks2_recover_key tries keyslots in
ascending index order (the trial trace is strictly increasing); when i is the
least index whose trial succeeds — in particular when two keyslots would both
derive a key passing digest verification, i being the smaller — slot i is the
one that opens, the final master-key install carries exactly slot i's
candidate key with length key_size, slot i is attempted, and no slot with a
larger index is ever attempted. -/
theorem luks2_recover_key_first_success_wins (P : Prims) (c : Crypt) (pass : List Nat)
    (hdr : Luks2Header) (raw : List Nat) (json ksv : JVal) (sz i : Nat)
    (kI : Keyslot) (sI : Segment) (keyI : List Nat)
    (hhdr : luks2_read_header P = .ok hdr)
    (hmal : P.malloc (recoverJlen hdr) = true)
    (hrd : P.readBytes (u64add (bswap64 hdr.hdr_offset) 4096) (recoverJlen hdr) = .ok raw)
    (hnul : ((raw ++ List.replicate (recoverJlen hdr - raw.length) 0).take
              (recoverJlen hdr)).contains 0 = true)
    (hjson : P.jsonParse
      ((raw ++ List.replicate (recoverJlen hdr - raw.length) 0).take (recoverJlen hdr))
      (bswap64 hdr.hdr_size) = .ok json)
    (hks : grub_json_getvalue json "keyslots" = some ksv)
    (hsz : grub_json_getsize ksv = some sz)
    (hisz : i < sz)
    (hsucc : slotSucceeds P json pass i kI sI keyI)
    (hskips : ∀ m, m < i → slotSkips P json pass m) :
    (luks2_recover_key P c (some pass)).opened = some i ∧
    (∀ b l, (luks2_recover_key P c (some pass)).masterCall = some (b, l) →
      b = keyI ∧ l = toSizeT kI.key_size) ∧
    i ∈ (luks2_recover_key P c (some pass)).attempted ∧
    (∀ x ∈ (luks2_recover_key P c (some pass)).attempted, x ≤ i) ∧
    List.Pairwise (fun x y => x < y) (luks2_recover_key P c (some pass)).attempted := by
  rw [recover_key_reaches_loop P c pass hdr hhdr hmal raw hrd hnul json hjson]
  rw [recoverWithJson_eq P c json pass ksv hks sz hsz]
  obtain ⟨st', hloop, l, hl, hb, hpw, hil⟩ :=
    trialLoop_first_success P json pass i kI sI keyI hsucc sz 0 { crypt := c }
      (Nat.zero_le i) (by omega) (fun m _ hm => hskips m hm)
  rw [hloop]
  obtain ⟨hop, hat, hmc⟩ := afterLoop_success P GrubErr.none st' i kI sI keyI
  have hat2 : (afterLoop P (CRet.ret GrubErr.none, st', some (i, kI, sI, keyI))).attempted = l := by
    rw [hat, hl]
    simp
  refine ⟨hop, hmc, ?_, ?_, ?_⟩
  · rw [hat2]
    exact hil
  · intro x hx
    rw [hat2] at hx
    exact (hb x hx).2
  · rw [hat2]
    exact hpw

/-- Witness for C2: with keyslot 0 at priority 0 and keyslot 1 verifying, the
attempt opens slot 1, installs its 4-byte key, and attempted exactly slot 1. -/
theorem luks2_recover_key_first_success_wins_witness :
    (luks2_recover_key fxPrimsTwo {} (some [112, 119])).opened = some 1 ∧
    (luks2_recover_key fxPrimsTwo {} (some [112, 119])).masterCall = some ([5, 5, 5, 5], 4) ∧
    1 ∈ (luks2_recover_key fxPrimsTwo {} (some [112, 119])).attempted := by
  have h := luks2_recover_key_first_success_wins fxPrimsTwo {} [112, 119] fxHdrP [123, 0]
      fxJsonTwo (JVal.obj [("0", fxSlotPrio0), ("1", fxSlotGood)]) 2 1 fxK fxSG [5, 5, 5, 5]
      rfl rfl rfl (by decide) rfl rfl rfl (by decide)
      (fun k d s => ⟨fxDG, 9,
        gk_of_closed fxJsonTwo 1 {} {} {} fxK fxDG fxSG (by decide) k d s,
        by decide, by rfl, fun c => ⟨by rfl, by rfl, by decide⟩⟩)
      (fun m hm => by
        interval_cases m
        exact Or.inr (Or.inl (fun k d s =>
          ⟨fxKP0, fxDG, fxSG,
           gk_of_closed fxJsonTwo 0 {} {} {} fxKP0 fxDG fxSG (by decide) k d s, by decide⟩)))
  exact ⟨h.1, by decide, h.2.2.1⟩

/-- C5 counterexample: on a device whose single keyslot decrypts but fails
digest verification, the attempt returns AccessDenied("Invalid passphrase")
as claimed, yet the crypto-disk object is not as it was before the attempt —
the area cipher configured during the failed trial is still installed. -/
theorem luks2_recover_key_cipher_left_counterexample :
    (luks2_recover_key fxPrims {} (some [112, 119])).ret =
      .ret (.accessDenied "Invalid passphrase") ∧
    (luks2_recover_key fxPrims {} (some [112, 119])).crypt.cipher =
      some ("aes", "xts-plain64") ∧
    (luks2_recover_key fxPrims {} (some [112, 119])).crypt ≠ ({} : Crypt) := by
  decide

/-- C5 (amended): if every keyslot trial fails, luks2_recover_key returns
AccessDenied("Invalid passphrase"); however the crypto-disk object may retain
cipher, key and sector-layout state written during the failed trials — only
the returned status is guaranteed, not a restored crypto-disk state. -/
theorem luks2_recover_key_exhausted_access_denied (P : Prims) (c : Crypt) (pass : List Nat)
    (hdr : Luks2Header) (raw : List Nat) (json ksv : JVal) (sz : Nat)
    (hhdr : luks2_read_header P = .ok hdr)
    (hmal : P.malloc (recoverJlen hdr) = true)
    (hrd : P.readBytes (u64add (bswap64 hdr.hdr_offset) 4096) (recoverJlen hdr) = .ok raw)
    (hnul : ((raw ++ List.replicate (recoverJlen hdr - raw.length) 0).take
              (recoverJlen hdr)).contains 0 = true)
    (hjson : P.jsonParse
      ((raw ++ List.replicate (recoverJlen hdr - raw.length) 0).take (recoverJlen hdr))
      (bswap64 hdr.hdr_size) = .ok json)
    (hks : grub_json_getvalue json "keyslots" = some ksv)
    (hsz : grub_json_getsize ksv = some sz)
    (hskips : ∀ m, m < sz → slotSkips P json pass m) :
    (luks2_recover_key P c (some pass)).ret = .ret (.accessDenied "Invalid passphrase") := by
  rw [recover_key_reaches_loop P c pass hdr hhdr hmal raw hrd hnul json hjson]
  rw [recoverWithJson_eq P c json pass ksv hks sz hsz]
  obtain ⟨st', hloop⟩ :=
    trialLoop_all_skip P json pass sz 0 { crypt := c } (fun m _ hm => hskips m (by omega))
  rw [hloop, afterLoop_none]

/-- Witness for the amended C5: the one-slot fixture whose verification fails
yields AccessDenied("Invalid passphrase"). -/
theorem luks2_recover_key_exhausted_access_denied_witness :
    (luks2_recover_key fxPrims {} (some [112, 119])).ret =
      .ret (.accessDenied "Invalid passphrase") :=
  luks2_recover_key_exhausted_access_denied fxPrims {} [112, 119] fxHdrP [123, 0]
    fxJsonFail (JVal.obj [("0", fxSlotGood)]) 1
    rfl rfl rfl (by decide) rfl rfl rfl
    (fun m hm => by
      interval_cases m
      exact Or.inr (Or.inr (fun k d s =>
        ⟨fxK, fxDB, fxSG, 9,
         gk_of_closed fxJsonFail 0 {} {} {} fxK fxDB fxSG (by decide) k d s,
         by decide, by rfl,
         fun c => Or.inr (by
           have hkey : (luks2_decrypt_key fxPrims (configSegment fxPrims c fxSG 9)
               fxK [112, 119]).key = [5, 5, 5, 5] := by rfl
           rw [hkey]
           decide)⟩)))

/-- C6: when the JSON region read by luks2_recover_key contains no NUL byte,
the attempt aborts before the JSON parser is invoked (jsonCall is none) and
before any keyslot is tried (attempted is empty), the crypto-disk state is
untouched, and the function returns without setting an error — the returned
status is the pre-existing GRUB_ERR_NONE, i.e. success. -/
theorem luks2_recover_key_missing_nul_aborts (P : Prims) (c : Crypt)
    (kf : Option (List Nat)) (hdr : Luks2Header) (raw : List Nat)
    (hhdr : luks2_read_header P = .ok hdr)
    (hmal : P.malloc (recoverJlen hdr) = true)
    (hrd : P.readBytes (u64add (bswap64 hdr.hdr_offset) 4096) (recoverJlen hdr) = .ok raw)
    (hnul : ((raw ++ List.replicate (recoverJlen hdr - raw.length) 0).take
              (recoverJlen hdr)).contains 0 = false) :
    luks2_recover_key P c kf =
      ⟨.ret .none, c, [], Option.none, Option.none, Option.none, zeros256, []⟩ := by
  unfold luks2_recover_key
  rw [hhdr]
  try dsimp only
  rw [hmal]
  simp only [recoverMalloc]
  rw [hrd]
  simp only [recoverRead]
  try dsimp only
  rw [hnul]
  simp only [recoverNul]

/-- Witness for C6: a JSON region reading [123, 125] (no NUL) makes the
attempt return success-status with nothing parsed or tried. -/
theorem luks2_recover_key_missing_nul_aborts_witness :
    ((([123, 125] : List Nat) ++ List.replicate (recoverJlen fxHdrP - 2) 0).take
      (recoverJlen fxHdrP)).contains 0 = false ∧
    luks2_recover_key fxPrimsNoNul {} (some [112, 119]) =
      ⟨.ret .none, {}, [], Option.none, Option.none, Option.none, zeros256, []⟩ :=
  ⟨by decide,
   luks2_recover_key_missing_nul_aborts fxPrimsNoNul {} (some [112, 119]) fxHdrP
     [123, 125] rfl rfl rfl (by decide)⟩

set_option maxRecDepth 4096

/-- C9 (code bug): luks2.c never zeroes its secret buffers.  In a concrete
complete unlock attempt the heap split-key buffer still holds the decrypted
key material [5, 5, 5, 5] — not zeros — at the moment grub_free releases it,
and the 256-byte interactive passphrase buffer still holds the typed
passphrase bytes at function exit instead of being wiped. -/
theorem luks2_recover_key_secrets_not_wiped :
    Event.freeSplitKey [5, 5, 5, 5] ∈ (luks2_recover_key fxPrims {} Option.none).events ∧
    [5, 5, 5, 5] ≠ List.replicate 4 0 ∧
    (luks2_recover_key fxPrims {} Option.none).passAtExit ≠ List.replicate MAX_PASSPHRASE 0 ∧
    (luks2_recover_key fxPrims {} Option.none).passAtExit =
      [112, 119, 100] ++ List.replicate 253 0 := by
  decide

/-- C10: whenever the header has be64(hdr_size) > 4096, the grub_json_parse
call of luks2_recover_key receives a buffer of exactly hdr_size - 4096 bytes
while its declared input length is hdr_size — the declared length always
exceeds the allocation by 4096 bytes. -/
theorem luks2_recover_key_json_parse_overread (P : Prims) (c : Crypt)
    (kf : Option (List Nat)) (hdr : Luks2Header)
    (hhdr : luks2_read_header P = .ok hdr)
    (hgt : 4096 < bswap64 hdr.hdr_size) :
    ∀ a l, (luks2_recover_key P c kf).jsonCall = some (a, l) →
      a = bswap64 hdr.hdr_size - 4096 ∧ l = a + 4096 := by
  have hlt : bswap64 hdr.hdr_size < U64 := bswap64_lt hdr.hdr_size
  have hjl : recoverJlen hdr = bswap64 hdr.hdr_size - 4096 := by
    unfold recoverJlen u64sub
    unfold U64 at hlt ⊢
    omega
  intro a l h
  unfold luks2_recover_key at h
  rw [hhdr] at h
  try dsimp only at h
  cases hm : P.malloc (recoverJlen hdr)
  all_goals rw [hm] at h
  all_goals simp only [recoverMalloc] at h
  · simp at h
  rcases hr : P.readBytes (u64add (bswap64 hdr.hdr_offset) 4096) (recoverJlen hdr) with e | raw
  all_goals rw [hr] at h
  all_goals simp only [recoverRead] at h
  · simp at h
  try dsimp only at h
  cases hn : ((raw ++ List.replicate (recoverJlen hdr - raw.length) 0).take
      (recoverJlen hdr)).contains 0
  all_goals rw [hn] at h
  all_goals simp only [recoverNul] at h
  · simp at h
  rcases hj : P.jsonParse
      ((raw ++ List.replicate (recoverJlen hdr - raw.length) 0).take (recoverJlen hdr))
      (bswap64 hdr.hdr_size) with e | json
  all_goals rw [hj] at h
  all_goals simp only [recoverParse] at h
  · simp at h
    omega
  · simp only [recoverPass] at h
    cases kf with
    | some kb =>
      simp at h
      omega
    | none =>
      rcases hpw : P.passwordGet with _ | pw
      all_goals rw [hpw] at h
      · simp at h
        omega
      · simp at h
        omega

/-- Witness for C10: on the concrete fixture header (decoded hdr_size 4098)
the parse call is recorded as (2, 4098): a 2-byte buffer with declared length
4098 = 2 + 4096. -/
theorem luks2_recover_key_json_parse_overread_witness :
    (luks2_recover_key fxPrims {} (some [112, 119])).jsonCall = some (2, 4098) ∧
    ((2 : Nat) = bswap64 fxHdrP.hdr_size - 4096 ∧ (4098 : Nat) = 2 + 4096) :=
  ⟨by decide,
   luks2_recover_key_json_parse_overread fxPrims {} (some [112, 119]) fxHdrP
     rfl (by decide) 2 4098 (by decide)⟩

theorem listGetEraseLt {A : Type} (l : List A) : forall (p j : Nat), j < p ->
    (l.eraseIdx p).get? j = l.get? j := by
  induction l with
  | nil =>
    intro p j h
    simp [List.eraseIdx]
  | cons a as ih =>
    intro p j h
    cases p with
    | zero => omega
    | succ n =>
      cases j with
      | zero => rfl
      | succ m =>
        simp only [List.eraseIdx, List.get?]
        exact ih n m (by omega)

theorem listGetEraseGe {A : Type} (l : List A) : forall (p j : Nat), p ≤ j ->
    (l.eraseIdx p).get? j = l.get? (j + 1) := by
  induction l with
  | nil =>
    intro p j h
    simp [List.eraseIdx]
  | cons a as ih =>
    intro p j h
    cases p with
    | zero => rfl
    | succ n =>
      cases j with
      | zero => omega
      | succ m =>
        simp only [List.eraseIdx, List.get?]
        exact ih n m (by omega)

theorem listLenErase {A : Type} (l : List A) : forall (p : Nat), p < l.length ->
    (l.eraseIdx p).length + 1 = l.length := by
  induction l with
  | nil =>
    intro p h
    simp at h
  | cons a as ih =>
    intro p h
    cases p with
    | zero => rfl
    | succ n =>
      simp only [List.eraseIdx, List.length_cons]
      have := ih n (by simpa using Nat.lt_of_succ_lt_succ h)
      omega

theorem gkFromChild_congr (ja jb child : JVal) (k : Keyslot) (d : Digest) (s : Segment)
    (hd : grub_json_getvalue jb "digests" = grub_json_getvalue ja "digests")
    (hs : grub_json_getvalue jb "segments" = grub_json_getvalue ja "segments") :
    gkFromChild k d s jb child = gkFromChild k d s ja child := by
  unfold gkFromChild
  rw [hd, hs]

theorem get_keyslot_erase_lt (ja jb : JVal) (ks : List (String × JVal)) (p : Nat)
    (h1 : grub_json_getvalue ja "keyslots" = some (.obj ks))
    (h2 : grub_json_getvalue jb "keyslots" = some (.obj (ks.eraseIdx p)))
    (hd : grub_json_getvalue jb "digests" = grub_json_getvalue ja "digests")
    (hs : grub_json_getvalue jb "segments" = grub_json_getvalue ja "segments")
    (j : Nat) (hj : j < p) (k : Keyslot) (d : Digest) (s : Segment) :
    luks2_get_keyslot k d s jb j = luks2_get_keyslot k d s ja j := by
  unfold luks2_get_keyslot
  rw [h1, h2]
  try dsimp only
  have hch : grub_json_getchild (JVal.obj (ks.eraseIdx p)) j =
      grub_json_getchild (JVal.obj ks) j := by
    simp only [grub_json_getchild]
    rw [listGetEraseLt ks p j hj]
  rw [hch]
  rcases hc : grub_json_getchild (JVal.obj ks) j with _ | child
  · rfl
  · simp only []
    exact gkFromChild_congr ja jb child k d s hd hs

theorem get_keyslot_erase_ge (ja jb : JVal) (ks : List (String × JVal)) (p : Nat)
    (h1 : grub_json_getvalue ja "keyslots" = some (.obj ks))
    (h2 : grub_json_getvalue jb "keyslots" = some (.obj (ks.eraseIdx p)))
    (hd : grub_json_getvalue jb "digests" = grub_json_getvalue ja "digests")
    (hs : grub_json_getvalue jb "segments" = grub_json_getvalue ja "segments")
    (j : Nat) (hj : p ≤ j) (k : Keyslot) (d : Digest) (s : Segment) :
    luks2_get_keyslot k d s jb j = luks2_get_keyslot k d s ja (j + 1) := by
  unfold luks2_get_keyslot
  rw [h1, h2]
  try dsimp only
  have hch : grub_json_getchild (JVal.obj (ks.eraseIdx p)) j =
      grub_json_getchild (JVal.obj ks) (j + 1) := by
    simp only [grub_json_getchild]
    rw [listGetEraseGe ks p j hj]
  rw [hch]
  rcases hc : grub_json_getchild (JVal.obj ks) (j + 1) with _ | child
  · rfl
  · simp only []
    exact gkFromChild_congr ja jb child k d s hd hs

theorem trialLoop_shifted (P : Prims) (pass : List Nat) (ja jb : JVal) (p : Nat)
    (hge : ∀ k d s j, p ≤ j → luks2_get_keyslot k d s jb j = luks2_get_keyslot k d s ja (j + 1)) :
    ∀ (n j : Nat), p ≤ j → ∀ st1 st2 : LoopSt, st1.crypt = st2.crypt →
      loopObs (trialLoop P ja pass st1 (j + 1) n) = loopObs (trialLoop P jb pass st2 j n) := by
  intro n
  induction n with
  | zero =>
    intro j hj st1 st2 hc
    simp [trialLoop, loopObs, hc]
  | succ n ih =>
    intro j hj st1 st2 hc
    rcases h1 : luks2_get_keyslot st1.k st1.d st1.s ja (j + 1) with ⟨r1, k1, d1, s1⟩
    rcases h2 : luks2_get_keyslot st2.k st2.d st2.s jb j with ⟨r2, k2, d2, s2⟩
    have h2' : luks2_get_keyslot st2.k st2.d st2.s ja (j + 1) = (r2, k2, d2, s2) := by
      rw [← hge st2.k st2.d st2.s j hj]
      exact h2
    have hind := luks2_get_keyslot_indep ja (j + 1) st2.k st1.k st2.d st1.d st2.s st1.s
    rw [h2', h1] at hind
    simp only at hind
    obtain ⟨hr, hout⟩ := hind
    subst hr
    simp only [trialLoop, h1, h2]
    cases r2 with
    | undef => simp [loopObs, hc]
    | ret e =>
      cases e
      case none =>
        have hkds := hout rfl
        simp only [Prod.mk.injEq] at hkds
        obtain ⟨hk, hd2, hs2⟩ := hkds
        subst hk
        subst hd2
        subst hs2
        try dsimp only
        by_cases hpr : k2.priority = 0
        · simp only [if_pos hpr]
          exact ih (j + 1) (by omega) _ _ (by simp [hc])
        · simp only [if_neg hpr]
          rcases hl : c_log2_u32 (toU32 s2.sector_size) with _ | lss
          · simp [hl, loopObs, configOffsetOnly, hc]
          · simp only [hl]
            try dsimp only
            rw [hc]
            cases hdr : (luks2_decrypt_key P (configSegment P st2.crypt s2 lss) k2 pass).ret
            · simp only [hdr]
              cases hv : luks2_verify_key P d2
                (luks2_decrypt_key P (configSegment P st2.crypt s2 lss) k2 pass).key
                (toSizeT k2.key_size)
              · simp only [hv]
                simp [loopObs]
              all_goals (simp only [hv]
                         exact ih (j + 1) (by omega) _ _ (by simp))
            all_goals (simp only [hdr]
                       exact ih (j + 1) (by omega) _ _ (by simp))
      all_goals (try dsimp only
                 exact ih (j + 1) (by omega) _ _ (by simp [hc]))

theorem trialLoop_erased (P : Prims) (pass : List Nat) (ja jb : JVal) (p : Nat)
    (hge : ∀ k d s j, p ≤ j → luks2_get_keyslot k d s jb j = luks2_get_keyslot k d s ja (j + 1))
    (hlt : ∀ k d s j, j < p → luks2_get_keyslot k d s jb j = luks2_get_keyslot k d s ja j)
    (hpz : slotPriorityZero ja p) :
    ∀ (n j : Nat), j ≤ p → p < j + (n + 1) → ∀ st1 st2 : LoopSt, st1.crypt = st2.crypt →
      loopObs (trialLoop P ja pass st1 j (n + 1)) = loopObs (trialLoop P jb pass st2 j n) := by
  intro n
  induction n with
  | zero =>
    intro j hjp hpn st1 st2 hc
    have hj : j = p := by omega
    subst hj
    obtain ⟨st', hstep, hatt, hcr, hev⟩ := trialLoop_priority_zero_step P ja pass st1 j 0 hpz
    rw [hstep]
    simp [trialLoop, loopObs, hcr, hc]
  | succ n ih =>
    intro j hjp hpn st1 st2 hc
    by_cases hj : j = p
    · subst hj
      obtain ⟨st', hstep, hatt, hcr, hev⟩ :=
        trialLoop_priority_zero_step P ja pass st1 j (n + 1) hpz
      rw [hstep]
      exact trialLoop_shifted P pass ja jb j hge (n + 1) j (Nat.le_refl j) st' st2
        (hcr.trans hc)
    · have hjlt : j < p := by omega
      rcases h1 : luks2_get_keyslot st1.k st1.d st1.s ja j with ⟨r1, k1, d1, s1⟩
      rcases h2 : luks2_get_keyslot st2.k st2.d st2.s jb j with ⟨r2, k2, d2, s2⟩
      have h2' : luks2_get_keyslot st2.k st2.d st2.s ja j = (r2, k2, d2, s2) := by
        rw [← hlt st2.k st2.d st2.s j hjlt]
        exact h2
      have hind := luks2_get_keyslot_indep ja j st2.k st1.k st2.d st1.d st2.s st1.s
      rw [h2', h1] at hind
      simp only at hind
      obtain ⟨hr, hout⟩ := hind
      subst hr
      conv_lhs => rw [trialLoop]
      conv_rhs => rw [trialLoop]
      rw [h1, h2]
      cases r2 with
      | undef => simp [loopObs, hc]
      | ret e =>
        cases e
        · have hkds := hout rfl
          simp only [Prod.mk.injEq] at hkds
          obtain ⟨hk, hd2, hs2⟩ := hkds
          subst hk
          subst hd2
          subst hs2
          try dsimp only
          by_cases hpr : k2.priority = 0
          · simp only [if_pos hpr]
            refine ih (j + 1) (by omega) (by omega) _ _ ?_
            first | rfl | simp [hc]
          · simp only [if_neg hpr]
            rcases hl : c_log2_u32 (toU32 s2.sector_size) with _ | lss
            · simp [hl, loopObs, configOffsetOnly, hc]
            · simp only [hl]
              try dsimp only
              rw [hc]
              cases hdr : (luks2_decrypt_key P (configSegment P st2.crypt s2 lss) k2 pass).ret
              · simp only [hdr]
                cases hv : luks2_verify_key P d2
                  (luks2_decrypt_key P (configSegment P st2.crypt s2 lss) k2 pass).key
                  (toSizeT k2.key_size)
                · simp only [hv]
                  simp [loopObs]
                all_goals (simp only [hv]
                           refine ih (j + 1) (by omega) (by omega) _ _ ?_
                           first | rfl | simp)
              all_goals (simp only [hdr]
                         refine ih (j + 1) (by omega) (by omega) _ _ ?_
                         first | rfl | simp)
        all_goals (try dsimp only
                   refine ih (j + 1) (by omega) (by omega) _ _ ?_
                   first | rfl | simp [hc])

theorem afterLoop_attempted (P : Prims) (lr : CRet × LoopSt × Option Winner) :
    (afterLoop P lr).attempted = lr.2.1.attempted := by
  rcases lr with ⟨c, st, w⟩
  cases c with
  | undef => rfl
  | ret e =>
    cases w with
    | none => rfl
    | some wv =>
      rcases wv with ⟨i, k, s, key⟩
      simp only [afterLoop]
      repeat' split
      all_goals rfl

theorem afterLoop_obs_congr (P : Prims) (r1 r2 : CRet × LoopSt × Option Winner)
    (h : loopObs r1 = loopObs r2) :
    (afterLoop P r1).ret = (afterLoop P r2).ret ∧
    (afterLoop P r1).crypt = (afterLoop P r2).crypt ∧
    (afterLoop P r1).masterCall = (afterLoop P r2).masterCall := by
  rcases r1 with ⟨c1, st1, w1⟩
  rcases r2 with ⟨c2, st2, w2⟩
  simp only [loopObs, Prod.mk.injEq] at h
  obtain ⟨hcc, hcr, hw⟩ := h
  subst hcc
  cases c1 with
  | undef => simp [afterLoop, hcr]
  | ret e =>
    cases w1 with
    | none =>
      cases w2 with
      | none => simp [afterLoop, hcr]
      | some w => simp at hw
    | some w1v =>
      cases w2 with
      | none => simp at hw
      | some w2v =>
        rcases w1v with ⟨i1, k1, s1, key1⟩
        rcases w2v with ⟨i2, k2, s2, key2⟩
        simp only [Option.map_some', Option.some.injEq, Prod.mk.injEq] at hw
        obtain ⟨hk, hs, hkey⟩ := hw
        subst hk
        subst hs
        subst hkey
        simp only [afterLoop]
        rw [hcr]
        by_cases hcl : toSizeT k1.key_size = 0
        · simp [hcl]
        · simp only [if_neg hcl]
          rcases hsd : splitDash (trunc32 s1.encryption) with _ | pr
          · simp [hsd]
          · rcases pr with ⟨cname, cmode⟩
            simp only [hsd]
            cases hsc : P.setcipher cname cmode
            · rcases hsk : P.setkey key1 (toSizeT k1.key_size) with _ | g
              · simp [hsk]
              · simp [hsk]
            all_goals simp

/-- C7: a keyslot whose parsed priority is 0 is never attempted by the trial
loop of luks2_recover_key (its index never enters the trial trace, so no key
derivation, decryption or verification is performed for it), and the unlock
attempt yields the same status, final crypto-disk state and master-key
install as the same attempt on metadata with that keyslot entry absent. -/
theorem luks2_recover_key_priority_zero_erased (P : Prims) (crypt : Crypt) (pass : List Nat)
    (ja jb : JVal) (ks : List (String × JVal)) (p : Nat)
    (h1 : grub_json_getvalue ja "keyslots" = some (.obj ks))
    (h2 : grub_json_getvalue jb "keyslots" = some (.obj (ks.eraseIdx p)))
    (hd : grub_json_getvalue jb "digests" = grub_json_getvalue ja "digests")
    (hs : grub_json_getvalue jb "segments" = grub_json_getvalue ja "segments")
    (hp : p < ks.length)
    (hpz : slotPriorityZero ja p) :
    p ∉ (recoverWithJson P crypt ja pass).attempted ∧
    (recoverWithJson P crypt ja pass).ret = (recoverWithJson P crypt jb pass).ret ∧
    (recoverWithJson P crypt ja pass).crypt = (recoverWithJson P crypt jb pass).crypt ∧
    (recoverWithJson P crypt ja pass).masterCall =
      (recoverWithJson P crypt jb pass).masterCall := by
  have hge : ∀ k d s j, p ≤ j →
      luks2_get_keyslot k d s jb j = luks2_get_keyslot k d s ja (j + 1) :=
    fun k d s j hj => get_keyslot_erase_ge ja jb ks p h1 h2 hd hs j hj k d s
  have hlt : ∀ k d s j, j < p →
      luks2_get_keyslot k d s jb j = luks2_get_keyslot k d s ja j :=
    fun k d s j hj => get_keyslot_erase_lt ja jb ks p h1 h2 hd hs j hj k d s
  have hle : (ks.eraseIdx p).length + 1 = ks.length := listLenErase ks p hp
  obtain ⟨m, hm⟩ : ∃ m, ks.length = m + 1 := ⟨ks.length - 1, by omega⟩
  have hml : (ks.eraseIdx p).length = m := by omega
  unfold recoverWithJson
  rw [h1, h2]
  try dsimp only
  simp only [grub_json_getsize]
  try dsimp only
  rw [hm, hml]
  have hobs := trialLoop_erased P pass ja jb p hge hlt hpz m 0 (by omega) (by omega)
    { crypt := crypt } { crypt := crypt } rfl
  have hcg := afterLoop_obs_congr P _ _ hobs
  refine ⟨?_, hcg.1, hcg.2.1, hcg.2.2⟩
  rw [afterLoop_attempted]
  exact trialLoop_priority_zero_not_attempted P ja pass p hpz (m + 1) 0
    { crypt := crypt } (by simp)

/-- Witness for C7: on the two-keyslot fixture metadata whose slot 0 has
priority 0, slot 0 is never attempted and the attempt agrees in status,
crypto-disk state and master-key install with the attempt on the metadata
whose slot-0 entry is erased. -/
theorem luks2_recover_key_priority_zero_erased_witness :
    0 ∉ (recoverWithJson fxPrimsTwo {} fxJsonTwo [112, 119]).attempted ∧
    (recoverWithJson fxPrimsTwo {} fxJsonTwo [112, 119]).ret =
      (recoverWithJson fxPrimsTwo {} fxJsonTwoErased [112, 119]).ret ∧
    (recoverWithJson fxPrimsTwo {} fxJsonTwo [112, 119]).crypt =
      (recoverWithJson fxPrimsTwo {} fxJsonTwoErased [112, 119]).crypt ∧
    (recoverWithJson fxPrimsTwo {} fxJsonTwo [112, 119]).masterCall =
      (recoverWithJson fxPrimsTwo {} fxJsonTwoErased [112, 119]).masterCall :=
  luks2_recover_key_priority_zero_erased fxPrimsTwo {} [112, 119] fxJsonTwo fxJsonTwoErased
    [("0", fxSlotPrio0), ("1", fxSlotGood)] 0 rfl rfl rfl rfl (by decide)
    (fun k d s => ⟨fxKP0, fxDG, fxSG,
      gk_of_closed fxJsonTwo 0 {} {} {} fxKP0 fxDG fxSG (by decide) k d s, by decide⟩)

-- END
